import Mathlib

/-!
The clients of siacentral/apisdkgo: endpoint functions, host filters and UniqueID.

A shallow embedding of the three client packages of the repository

* `sia`       (src/sia/hosts.go, src/sia/wallet.go), the struct-based client,
* `apiclient` (src/wallet.go), the old package-level client,
* `scprime`   (src/scprime/troubleshoot.go),

followed by theorems about the response classification, the address-list
ceiling, the pagination clamp, the host filter modifiers and the hex form of
`UniqueID`.

Conventions of the embedding

* Go `error` is `Option GoError` (`none` is `nil`).
* A function with named results that hands `&resp` to the transport helper is a
  pure function of the helper: the helper is a parameter that receives the
  request and the initial content of `resp` and returns the status code, the
  error and the content of `resp` afterwards.
* Every endpoint returns, besides its Go results, the list of requests it
  dispatched to the transport helper (`calls`).
* `url.Values` (a Go `map[string][]string`) is an association list with at most
  one entry per key; two collections are the same map when `Values.Get?`
  agrees on every key.
* Payload types declared outside the embedded files are type parameters whose
  Go zero value is `default`.
* Go `int` is `Int` and `uint64` is `Nat`: no endpoint does arithmetic on them,
  they are only compared with constants and rendered in decimal.
* A Go slice is a `List`; the `nil` slice and the empty slice are both `[]`.
* Library functions whose text is outside the repository and whose result no
  statement depends on (`url.PathEscape`, `url.QueryEscape`,
  `strconv.FormatFloat`) are parameters.
-/

set_option autoImplicit false

/-! ## Go runtime and library pieces the endpoints use -/

/-- A Go error value: `errorsNew msg` is `errors.New(msg)`, `transportError msg`
stands for any error value produced by the transport helper. -/
inductive GoError where
  | errorsNew (msg : String)
  | transportError (msg : String)
  deriving DecidableEq, Repr

/-- The `Error()` method of a Go error. -/
def GoError.Error : GoError → String
  | .errorsNew msg => msg
  | .transportError msg => msg

/-- The request a caller hands to `makeAPIRequest`: method, url and body
(`none` is a `nil` body). -/
structure Request (β : Type) where
  method : String
  url : String
  body : Option β

/-- What one call of `makeAPIRequest(method, url, body, &resp)` yields: the
status code, the error, and the content of `resp` after the call. -/
structure Reply (ρ : Type) where
  code : Int
  err : Option GoError
  resp : ρ

/-- The transport helper `makeAPIRequest`, as seen by an endpoint whose response
structure has type `ρ`: it receives the request and the initial `resp`. -/
abbrev Transport (β ρ : Type) := Request β → ρ → Reply ρ

/-- The results of an endpoint function: the Go results (`value`, `err`) and the
requests dispatched to the transport helper, in order. -/
structure Outcome (β α : Type) where
  value : α
  err : Option GoError
  calls : List (Request β)

/-- `http.MethodGet`, and `HTTPGet` of the old client. -/
def MethodGet : String := "GET"

/-- `http.MethodPost`, and `HTTPPost` of the old client. -/
def MethodPost : String := "POST"

/-- `strconv.FormatBool`. -/
def FormatBool (b : Bool) : String := if b then "true" else "false"

/-- `strconv.FormatUint(n, 10)`: the decimal digits of an unsigned integer. -/
def FormatUint (n : Nat) : String := Nat.repr n

/-- `strconv.Itoa`, also the `%d` verb of `fmt.Sprintf` on an `int`. -/
def Itoa (i : Int) : String :=
  match i with
  | Int.ofNat n => Nat.repr n
  | Int.negSucc n => "-" ++ Nat.repr (n + 1)

/-- `types.Currency`: an arbitrary-precision unsigned integer. -/
structure Currency where
  val : Nat
  deriving DecidableEq, Repr

instance : Inhabited Currency := ⟨⟨0⟩⟩

/-- `Currency.String`: the decimal digits of the amount. -/
def Currency.String (c : Currency) : String := Nat.repr c.val

/-! ## url.Values -/

/-- `url.Values`, a `map[string][]string`. -/
abbrev Values := List (String × List String)

namespace Values

/-- The map lookup `v[key]`, with `none` for an absent key. -/
def Get? (v : Values) (key : String) : Option (List String) :=
  match v with
  | [] => none
  | (k, vs) :: rest => if k = key then some vs else Get? rest key

/-- The keys present in the map. -/
def keys (v : Values) : List String := v.map Prod.fst

/-- `v.Set(key, value)`: `v[key] = []string{value}`. -/
def Set (v : Values) (key value : String) : Values :=
  match v with
  | [] => [(key, [value])]
  | (k, vs) :: rest => if k = key then (k, [value]) :: rest else (k, vs) :: Set rest key value

/-- `v.Add(key, value)`: `v[key] = append(v[key], value)`. -/
def Add (v : Values) (key value : String) : Values :=
  match v with
  | [] => [(key, [value])]
  | (k, vs) :: rest => if k = key then (k, vs ++ [value]) :: rest else (k, vs) :: Add rest key value

/-- The order in which `Encode` sorts the keys: the order of Go strings, byte by
byte, which on UTF-8 text is the order of the code points, character by
character, a proper initial segment coming first. -/
def keyLess : List Char → List Char → Bool
  | [], [] => false
  | [], _ :: _ => true
  | _ :: _, [] => false
  | a :: as, b :: bs =>
    if a.toNat < b.toNat then true
    else if b.toNat < a.toNat then false
    else keyLess as bs

/-- Insertion of an entry into a list of entries ordered by key. -/
def insertByKey (e : String × List String) : Values → Values
  | [] => [e]
  | x :: rest => if keyLess e.1.data x.1.data then e :: x :: rest else x :: insertByKey e rest

/-- The entries ordered by key, as `Encode` visits them. -/
def sortedByKey (v : Values) : Values := v.foldr insertByKey []

/-- The key and value pairs of the query string, in the order `Encode` writes
them: the keys in order, the values of one key in the order they were added. -/
def pairs (v : Values) : List (String × String) :=
  (sortedByKey v).flatMap fun e => e.2.map fun x => (e.1, x)

/-- The values the query string carries for the key `k`, in the order `Encode`
writes them. -/
def queryValues (v : Values) (k : String) : List String :=
  ((pairs v).filter fun p => decide (p.1 = k)).map Prod.snd

/-- `v.Encode()`: `key=value` pairs joined by `&`, ordered by key, every key and
value passed through `url.QueryEscape`. -/
def Encode (QueryEscape : String → String) (v : Values) : String :=
  "&".intercalate ((pairs v).map fun p => QueryEscape p.1 ++ "=" ++ QueryEscape p.2)

end Values

/-! ## Package sia: src/sia/hosts.go -/

namespace sia

def acceptContractsParam : String := "acceptcontracts"
def onlineParam : String := "online"
def benchmarkedParam : String := "benchmarked"
def minAgeParam : String := "minage"
def minUptimeParam : String := "minuptime"
def minDurationParam : String := "minduration"
def minStorageParam : String := "minstorage"
def minUploadSpeedParam : String := "minuploadspeed"
def minDownloadSpeedParam : String := "mindownloadspeed"
def maxStoragePriceParam : String := "maxstorageprice"
def maxUploadPriceParam : String := "maxuploadprice"
def maxDownloadPriceParam : String := "maxdownloadprice"
def maxContractPriceParam : String := "maxcontractprice"
def maxBaseRPCPriceParam : String := "maxbaserpcprice"
def maxSectorAccessPriceParam : String := "maxsectoraccessprice"
def sortParam : String := "sort"
def dirParam : String := "dir"

/-- `HostFilter func(url.Values)`: the mutation of the shared collection is the
collection after the call. -/
abbrev HostFilter := Values → Values

/-- `HostSort string`. -/
abbrev HostSort := String

def HostFilterAcceptingContracts (accepting : Bool) : HostFilter :=
  fun v => v.Set acceptContractsParam (FormatBool accepting)

def HostFilterOnline (online : Bool) : HostFilter :=
  fun v => v.Set onlineParam (FormatBool online)

def HostFilterBenchmarked (benchmarked : Bool) : HostFilter :=
  fun v => v.Set benchmarkedParam (FormatBool benchmarked)

def HostFilterMinAge (age : Nat) : HostFilter :=
  fun v => v.Set minAgeParam (FormatUint age)

/-- `HostFilterMinUptime`: `float64` and `strconv.FormatFloat(·, 'f', -1, 64)` are
parameters. -/
def HostFilterMinUptime {Float64 : Type} (FormatFloat : Float64 → String)
    (minUptime : Float64) : HostFilter :=
  fun v => v.Set minUptimeParam (FormatFloat minUptime)

def HostFilterMinDuration (minDuration : Nat) : HostFilter :=
  fun v => v.Set minDurationParam (FormatUint minDuration)

def HostFilterMinStorage (minStorage : Nat) : HostFilter :=
  fun v => v.Set minStorageParam (FormatUint minStorage)

def HostFilterMinUploadSpeed (minUploadSpeed : Nat) : HostFilter :=
  fun v => v.Set minUploadSpeedParam (FormatUint minUploadSpeed)

def HostFilterMinDownloadSpeed (minDownloadSpeed : Nat) : HostFilter :=
  fun v => v.Set minDownloadSpeedParam (FormatUint minDownloadSpeed)

def HostFilterMaxStoragePrice (price : Currency) : HostFilter :=
  fun v => v.Set maxStoragePriceParam price.String

def HostFilterMaxUploadPrice (price : Currency) : HostFilter :=
  fun v => v.Set maxUploadPriceParam price.String

def HostFilterMaxDownloadPrice (price : Currency) : HostFilter :=
  fun v => v.Set maxDownloadPriceParam price.String

def HostFilterMaxContractPrice (price : Currency) : HostFilter :=
  fun v => v.Set maxContractPriceParam price.String

def HostFilterMaxBaseRPCPrice (price : Currency) : HostFilter :=
  fun v => v.Set maxBaseRPCPriceParam price.String

def HostFilterSectorAccessPrice (price : Currency) : HostFilter :=
  fun v => v.Set maxSectorAccessPriceParam price.String

def HostFilterSort (field : HostSort) (desc : Bool) : HostFilter :=
  fun v =>
    let v := v.Set sortParam field
    if desc then v.Set dirParam "desc" else v.Set dirParam "asc"

/-- `UniqueID`, a `types.Specifier`, which is a `[16]byte`. -/
structure UniqueID where
  bytes : List Nat
  size_eq : bytes.length = 16
  byte_lt : ∀ b ∈ bytes, b < 256

instance : Inhabited UniqueID :=
  ⟨⟨List.replicate 16 0, by decide, by decide⟩⟩

/-- `RPCPriceTable`: `time.Duration` is an `Int`, `types.BlockHeight` and `uint64`
are `Nat`. -/
structure RPCPriceTable where
  UID : UniqueID
  Validity : Int
  HostBlockHeight : Nat
  UpdatePriceTableCost : Currency
  AccountBalanceCost : Currency
  FundAccountCost : Currency
  LatestRevisionCost : Currency
  SubscriptionMemoryCost : Currency
  SubscriptionNotificationCost : Currency
  InitBaseCost : Currency
  MemoryTimeCost : Currency
  DownloadBandwidthCost : Currency
  UploadBandwidthCost : Currency
  DropSectorsBaseCost : Currency
  DropSectorsUnitCost : Currency
  HasSectorBaseCost : Currency
  ReadBaseCost : Currency
  ReadLengthCost : Currency
  RenewContractCost : Currency
  RevisionBaseCost : Currency
  SwapSectorCost : Currency
  WriteBaseCost : Currency
  WriteLengthCost : Currency
  WriteStoreCost : Currency
  TxnFeeMinRecommended : Currency
  TxnFeeMaxRecommended : Currency
  ContractPrice : Currency
  CollateralCost : Currency
  MaxCollateral : Currency
  MaxDuration : Nat
  WindowSize : Nat
  RegistryEntriesLeft : Nat
  RegistryEntriesTotal : Nat
  deriving Inhabited

/-- Modelled from the spec: `APIResponse` of package sia is declared outside the
embedded files; the envelope every response embeds, with the string fields
`type` and `message`. -/
structure APIResponse where
  Type_ : String
  Message : String
  deriving DecidableEq, Inhabited, Repr

section
variable {HostConfig AvgHostBenchmark HostDetails AddressUsage SiacoinOutput SiafundOutput
  Transaction TypesTransaction : Type}

structure getHostsResp (HostDetails : Type) extends APIResponse where
  Hosts : List HostDetails
  deriving Inhabited

structure getHostDetailResp (HostDetails : Type) extends APIResponse where
  Host : HostDetails
  deriving Inhabited

structure getAveragesResp (HostConfig AvgHostBenchmark : Type) extends APIResponse where
  Settings : HostConfig
  PriceTable : RPCPriceTable
  Benchmarks : AvgHostBenchmark
  BenchmarksRHP2 : AvgHostBenchmark
  deriving Inhabited

/-- The JSON bodies the endpoints of package sia send: `map[string]interface{}`
with the single key `addresses` or `transactions`. -/
inductive Body (TypesTransaction : Type) where
  | addresses (addresses : List String)
  | transactions (transactions : List TypesTransaction)

/-- GetNetworkAverages gets the average settings and benchmarks of all active
hosts on the network. -/
def GetNetworkAverages [Inhabited HostConfig] [Inhabited AvgHostBenchmark]
    (makeAPIRequest : Transport (Body TypesTransaction) (getAveragesResp HostConfig AvgHostBenchmark)) :
    Outcome (Body TypesTransaction) (HostConfig × AvgHostBenchmark × AvgHostBenchmark) :=
  let req : Request (Body TypesTransaction) := ⟨MethodGet, "/hosts/network/averages", none⟩
  let r := makeAPIRequest req default
  match r.err with
  | some e => ⟨(default, default, default), some e, [req]⟩
  | none =>
    if r.code < 200 ∨ r.code ≥ 300 ∨ r.resp.Type_ ≠ "success" then
      ⟨(default, default, default), some (GoError.errorsNew r.resp.Message), [req]⟩
    else
      ⟨(r.resp.Settings, r.resp.Benchmarks, r.resp.BenchmarksRHP2), none, [req]⟩

/-- The query-parameter collection `values` of `GetActiveHosts`, as it stands
when `values.Encode()` is called: the clamps of `page` and `limit`, the filters
applied in order to an empty collection, then the two `Add` calls. -/
def GetActiveHosts.values (page limit : Int) (filters : List HostFilter) : Values :=
  let page := if page < 0 then 0 else page
  let limit := if limit < 0 ∨ limit > 500 then 500 else limit
  let values : Values := filters.foldl (fun values v => v values) []
  let values := values.Add "page" (Itoa page)
  values.Add "limit" (Itoa limit)

/-- The `String()` of the parsed `https://api.siacentral.com/v2/hosts` once its
`RawQuery` is set. -/
def GetActiveHosts.endpoint (rawQuery : String) : String :=
  if rawQuery = "" then "https://api.siacentral.com/v2/hosts"
  else "https://api.siacentral.com/v2/hosts" ++ "?" ++ rawQuery

/-- GetActiveHosts gets all Sia hosts that have been successfully scanned in the
last 24 hours. `url.QueryEscape` is a parameter. -/
def GetActiveHosts (QueryEscape : String → String)
    (makeAPIRequest : Transport (Body TypesTransaction) (getHostsResp HostDetails))
    (page limit : Int) (filters : List HostFilter) :
    Outcome (Body TypesTransaction) (List HostDetails) :=
  let values := GetActiveHosts.values page limit filters
  let req : Request (Body TypesTransaction) :=
    ⟨MethodGet, GetActiveHosts.endpoint (values.Encode QueryEscape), none⟩
  let r := makeAPIRequest req default
  match r.err with
  | some e => ⟨[], some e, [req]⟩
  | none =>
    if r.code < 200 ∨ r.code ≥ 300 ∨ r.resp.Type_ ≠ "success" then
      ⟨[], some (GoError.errorsNew r.resp.Message), [req]⟩
    else
      ⟨r.resp.Hosts, none, [req]⟩

/-- GetHost finds a host matching the public key or netaddress. `url.PathEscape`
is a parameter. -/
def GetHost [Inhabited HostDetails] (PathEscape : String → String)
    (makeAPIRequest : Transport (Body TypesTransaction) (getHostDetailResp HostDetails))
    (id : String) : Outcome (Body TypesTransaction) HostDetails :=
  let req : Request (Body TypesTransaction) := ⟨MethodGet, "/hosts/" ++ PathEscape id, none⟩
  let r := makeAPIRequest req default
  match r.err with
  | some e => ⟨default, some e, [req]⟩
  | none =>
    if r.code < 200 ∨ r.code ≥ 300 ∨ r.resp.Type_ ≠ "success" then
      ⟨default, some (GoError.errorsNew r.resp.Message), [req]⟩
    else
      ⟨r.resp.Host, none, [req]⟩

/-! ## Package sia: src/sia/wallet.go -/

structure getAddressesResp (AddressUsage : Type) extends APIResponse where
  Addresses : List AddressUsage
  deriving Inhabited

structure apiFees where
  Address : String
  Fee : Currency
  deriving Inhabited

structure getFeesResp extends APIResponse where
  Minimum : Currency
  Maximum : Currency
  API : apiFees
  deriving Inhabited

/-- GetTransactionsResp holds balance and transactions for an address or set of
addresses. -/
structure GetTransactionsResp (SiacoinOutput SiafundOutput Transaction : Type)
    extends APIResponse where
  UnspentSiacoins : Currency
  UnspentSiafunds : Currency
  UnspentSiacoinOutputs : List SiacoinOutput
  UnspentSiafundOutputs : List SiafundOutput
  Transactions : List Transaction
  UnconfirmedTransactions : List Transaction
  SiafundClaim : Currency
  deriving Inhabited

/-- GetTransactionFees gets the current transaction fees of the Sia network. -/
def GetTransactionFees (makeAPIRequest : Transport (Body TypesTransaction) getFeesResp) :
    Outcome (Body TypesTransaction) (Currency × Currency) :=
  let req : Request (Body TypesTransaction) := ⟨MethodGet, "/wallet/fees", none⟩
  let r := makeAPIRequest req default
  match r.err with
  | some e => ⟨(default, default), some e, [req]⟩
  | none =>
    if r.code < 200 ∨ r.code ≥ 300 ∨ r.resp.Type_ ≠ "success" then
      ⟨(default, default), some (GoError.errorsNew r.resp.Message), [req]⟩
    else
      ⟨(r.resp.Minimum, r.resp.Maximum), none, [req]⟩

/-- GetAPIFees gets the current transaction fee and payout address of the Sia
Central API. -/
def GetAPIFees (makeAPIRequest : Transport (Body TypesTransaction) getFeesResp) :
    Outcome (Body TypesTransaction) (Currency × String) :=
  let req : Request (Body TypesTransaction) := ⟨MethodGet, "/wallet/fees", none⟩
  let r := makeAPIRequest req default
  match r.err with
  | some e => ⟨(default, ""), some e, [req]⟩
  | none =>
    if r.code < 200 ∨ r.code ≥ 300 ∨ r.resp.Type_ ≠ "success" then
      ⟨(default, ""), some (GoError.errorsNew r.resp.Message), [req]⟩
    else
      ⟨(r.resp.API.Fee, r.resp.API.Address), none, [req]⟩

/-- FindAddressBalance gets all unspent outputs and the last n transactions for a
list of addresses. The named result `resp` is the structure handed to the
transport helper. -/
def FindAddressBalance
    (makeAPIRequest : Transport (Body TypesTransaction)
      (GetTransactionsResp SiacoinOutput SiafundOutput Transaction))
    (limit page : Int) (addresses : List String) :
    Outcome (Body TypesTransaction) (GetTransactionsResp SiacoinOutput SiafundOutput Transaction) :=
  if addresses.length > 10000 then
    ⟨default, some (GoError.errorsNew "maximum of 10000 addresses"), []⟩
  else
    let req : Request (Body TypesTransaction) :=
      ⟨MethodPost, "/wallet/addresses?limit=" ++ Itoa limit ++ "&page=" ++ Itoa page,
        some (Body.addresses addresses)⟩
    let r := makeAPIRequest req default
    match r.err with
    | some e => ⟨r.resp, some e, [req]⟩
    | none =>
      if r.code < 200 ∨ r.code ≥ 300 ∨ r.resp.Type_ ≠ "success" then
        ⟨r.resp, some (GoError.errorsNew r.resp.Message), [req]⟩
      else
        ⟨r.resp, none, [req]⟩

/-- FindUsedAddresses gets all addresses that have been seen in a transaction on
the blockchain. -/
def FindUsedAddresses
    (makeAPIRequest : Transport (Body TypesTransaction) (getAddressesResp AddressUsage))
    (addresses : List String) : Outcome (Body TypesTransaction) (List AddressUsage) :=
  if addresses.length > 10000 then
    ⟨[], some (GoError.errorsNew "maximum of 10000 addresses"), []⟩
  else
    let req : Request (Body TypesTransaction) :=
      ⟨MethodPost, "/wallet/addresses/used", some (Body.addresses addresses)⟩
    let r := makeAPIRequest req default
    match r.err with
    | some e => ⟨[], some e, [req]⟩
    | none =>
      if r.code < 200 ∨ r.code ≥ 300 ∨ r.resp.Type_ ≠ "success" then
        ⟨[], some (GoError.errorsNew r.resp.Message), [req]⟩
      else
        ⟨r.resp.Addresses, none, [req]⟩

/-- GetAddressBalance gets all unspent outputs and the last n transactions of an
address. The named result `resp` is the structure handed to the transport
helper. -/
def GetAddressBalance
    (makeAPIRequest : Transport (Body TypesTransaction)
      (GetTransactionsResp SiacoinOutput SiafundOutput Transaction))
    (limit page : Int) (address : String) :
    Outcome (Body TypesTransaction) (GetTransactionsResp SiacoinOutput SiafundOutput Transaction) :=
  let _unused := (limit, page)
  let req : Request (Body TypesTransaction) := ⟨MethodGet, "/wallet/addresses/" ++ address, none⟩
  let r := makeAPIRequest req default
  match r.err with
  | some e => ⟨r.resp, some e, [req]⟩
  | none =>
    if r.code < 200 ∨ r.code ≥ 300 ∨ r.resp.Type_ ≠ "success" then
      ⟨r.resp, some (GoError.errorsNew r.resp.Message), [req]⟩
    else
      ⟨r.resp, none, [req]⟩

/-- BroadcastTransactionSet broadcasts the transaction set to the network. -/
def BroadcastTransactionSet (makeAPIRequest : Transport (Body TypesTransaction) APIResponse)
    (transactions : List TypesTransaction) : Outcome (Body TypesTransaction) Unit :=
  let req : Request (Body TypesTransaction) :=
    ⟨MethodPost, "/wallet/broadcast", some (Body.transactions transactions)⟩
  let r := makeAPIRequest req default
  match r.err with
  | some e => ⟨(), some e, [req]⟩
  | none =>
    if r.code < 200 ∨ r.code ≥ 300 ∨ r.resp.Type_ ≠ "success" then
      ⟨(), some (GoError.errorsNew r.resp.Message), [req]⟩
    else
      ⟨(), none, [req]⟩

end

end sia

/-! ## Package apiclient: src/wallet.go, the old client -/

namespace apiclient

/-- Modelled from the spec: `APIResponse` of package apiclient is declared outside
the embedded files; the envelope every response embeds, with the string fields
`type` and `message`. -/
structure APIResponse where
  Type_ : String
  Message : String
  deriving DecidableEq, Inhabited, Repr

section
variable {AddressUsage SiacoinOutput WalletTransaction : Type}

structure getAddressesResp (AddressUsage : Type) extends APIResponse where
  Addresses : List AddressUsage
  deriving Inhabited

structure getFeesResp extends APIResponse where
  Minimum : Currency
  Maximum : Currency
  SiaCentral : Currency
  deriving Inhabited

/-- GetTransactionsResp holds balance and transactions for an address or set of
addresses. -/
structure GetTransactionsResp (SiacoinOutput WalletTransaction : Type) extends APIResponse where
  Unspent : Currency
  UnspentOutputs : List SiacoinOutput
  Transactions : List WalletTransaction
  UnconfirmedTransactions : List WalletTransaction
  deriving Inhabited

/-- The JSON body the endpoints of package apiclient send: `map[string]interface{}`
with the single key `addresses`. -/
inductive Body where
  | addresses (addresses : List String)

/-- GetTransactionFees gets the current transaction fees of the Sia network. -/
def GetTransactionFees (makeAPIRequest : Transport Body getFeesResp) :
    Outcome Body (Currency × Currency × Currency) :=
  let req : Request Body := ⟨MethodGet, "/wallet/fees", none⟩
  let r := makeAPIRequest req default
  match r.err with
  | some e => ⟨(default, default, default), some e, [req]⟩
  | none =>
    if r.code < 200 ∨ r.code ≥ 300 ∨ r.resp.Type_ ≠ "success" then
      ⟨(default, default, default), some (GoError.errorsNew r.resp.Message), [req]⟩
    else
      ⟨(r.resp.Minimum, r.resp.Maximum, r.resp.SiaCentral), none, [req]⟩

/-- FindAddressBalance gets all unspent outputs and the last n transactions for a
list of addresses. The named result `resp` is the structure handed to the
transport helper. -/
def FindAddressBalance
    (makeAPIRequest : Transport Body (GetTransactionsResp SiacoinOutput WalletTransaction))
    (limit page : Int) (addresses : List String) :
    Outcome Body (GetTransactionsResp SiacoinOutput WalletTransaction) :=
  if addresses.length > 10000 then
    ⟨default, some (GoError.errorsNew "maximum of 10000 addresses"), []⟩
  else
    let req : Request Body :=
      ⟨MethodPost, "/wallet/addresses?limit=" ++ Itoa limit ++ "&page=" ++ Itoa page,
        some (Body.addresses addresses)⟩
    let r := makeAPIRequest req default
    match r.err with
    | some e => ⟨r.resp, some e, [req]⟩
    | none =>
      if r.code < 200 ∨ r.code ≥ 300 ∨ r.resp.Type_ ≠ "success" then
        ⟨r.resp, some (GoError.errorsNew r.resp.Message), [req]⟩
      else
        ⟨r.resp, none, [req]⟩

/-- FindUsedAddresses gets all addresses that have been seen in a transaction on
the blockchain. -/
def FindUsedAddresses (makeAPIRequest : Transport Body (getAddressesResp AddressUsage))
    (addresses : List String) : Outcome Body (List AddressUsage) :=
  if addresses.length > 10000 then
    ⟨[], some (GoError.errorsNew "maximum of 10000 addresses"), []⟩
  else
    let req : Request Body := ⟨MethodPost, "/wallet/addresses/used", some (Body.addresses addresses)⟩
    let r := makeAPIRequest req default
    match r.err with
    | some e => ⟨[], some e, [req]⟩
    | none =>
      if r.code < 200 ∨ r.code ≥ 300 ∨ r.resp.Type_ ≠ "success" then
        ⟨[], some (GoError.errorsNew r.resp.Message), [req]⟩
      else
        ⟨r.resp.Addresses, none, [req]⟩

/-- GetAddressBalance gets all unspent outputs and the last n transactions of an
address. The named result `resp` is the structure handed to the transport
helper. -/
def GetAddressBalance
    (makeAPIRequest : Transport Body (GetTransactionsResp SiacoinOutput WalletTransaction))
    (limit page : Int) (address : String) :
    Outcome Body (GetTransactionsResp SiacoinOutput WalletTransaction) :=
  let _unused := (limit, page)
  let req : Request Body := ⟨MethodGet, "/wallet/addresses/" ++ address, none⟩
  let r := makeAPIRequest req default
  match r.err with
  | some e => ⟨r.resp, some e, [req]⟩
  | none =>
    if r.code < 200 ∨ r.code ≥ 300 ∨ r.resp.Type_ ≠ "success" then
      ⟨r.resp, some (GoError.errorsNew r.resp.Message), [req]⟩
    else
      ⟨r.resp, none, [req]⟩

end

end apiclient

/-! ## Package scprime: src/scprime/troubleshoot.go -/

namespace scprime

/-- Modelled from the spec: `APIResponse` of package scprime is declared outside
the embedded files; the envelope every response embeds, with the string fields
`type` and `message`. -/
structure APIResponse where
  Type_ : String
  Message : String
  deriving DecidableEq, Inhabited, Repr

structure getConnectionResp (ConnectionReport : Type) extends APIResponse where
  Report : ConnectionReport
  deriving Inhabited

/-- GetHostConnectivity checks that a host is running and connectable at the
provided netaddress. `url.PathEscape` is a parameter; the body is always `nil`,
so the body type `β` is free. -/
def GetHostConnectivity {β ConnectionReport : Type} [Inhabited ConnectionReport]
    (PathEscape : String → String)
    (makeAPIRequest : Transport β (getConnectionResp ConnectionReport))
    (netaddress : String) : Outcome β ConnectionReport :=
  let req : Request β := ⟨MethodGet, "/troubleshoot/" ++ PathEscape netaddress, none⟩
  let r := makeAPIRequest req default
  match r.err with
  | some e => ⟨default, some e, [req]⟩
  | none =>
    if r.code < 200 ∨ r.code ≥ 300 then
      ⟨default, some (GoError.errorsNew r.resp.Message), [req]⟩
    else
      ⟨r.resp.Report, none, [req]⟩

end scprime

/-! ## encoding/hex and encoding/json, as used by UniqueID -/

/-- The table `hextable` of encoding/hex. -/
def hextable : List Char := "0123456789abcdef".toList

/-- The character `hextable[n]`. -/
def hexChar (n : Nat) : Char := hextable.getD n '0'

/-- `hex.EncodeToString`: two characters per byte, `hextable[v>>4]` then
`hextable[v&0x0f]`. -/
def hexEncodeToString (src : List Nat) : String :=
  String.mk (src.flatMap fun v => [hexChar (v / 16), hexChar (v % 16)])

/-- `fromHexChar` of encoding/hex: the value of one hex character, `none` for a
character that is no hex digit. -/
def fromHexChar (c : Char) : Option Nat :=
  if '0' ≤ c ∧ c ≤ '9' then some (c.toNat - '0'.toNat)
  else if 'a' ≤ c ∧ c ≤ 'f' then some (c.toNat - 'a'.toNat + 10)
  else if 'A' ≤ c ∧ c ≤ 'F' then some (c.toNat - 'A'.toNat + 10)
  else none

/-- The loop of `hex.Decode` over the characters: `(a << 4) | b` per pair,
`none` for an invalid character (`InvalidByteError`) or an odd length
(`ErrLength`). -/
def hexDecodeChars : List Char → Option (List Nat)
  | [] => some []
  | [_] => none
  | a :: b :: rest =>
    match fromHexChar a, fromHexChar b, hexDecodeChars rest with
    | some hi, some lo, some tail => some ((hi * 16 + lo) :: tail)
    | _, _, _ => none

/-- `hex.DecodeString`. -/
def hexDecodeString (s : String) : Option (List Nat) := hexDecodeChars s.data

/-- The escape `json.Marshal` writes for one character of a string (HTML escaping
on): backslash and double quote get a backslash, the control characters their
short or `u00XX` form, `<`, `>`, `&` the `u00XX` form, U+2028 and U+2029 the
`u202X` form, any other character stands for itself. -/
def jsonEscapeChar (c : Char) : List Char :=
  let b := c.toNat
  if b = 92 ∨ b = 34 then [Char.ofNat 92, c]
  else if b = 8 then [Char.ofNat 92, 'b']
  else if b = 12 then [Char.ofNat 92, 'f']
  else if b = 10 then [Char.ofNat 92, 'n']
  else if b = 13 then [Char.ofNat 92, 'r']
  else if b = 9 then [Char.ofNat 92, 't']
  else if b < 32 ∨ b = 60 ∨ b = 62 ∨ b = 38 then
    [Char.ofNat 92, 'u', '0', '0', hexChar (b / 16), hexChar (b % 16)]
  else if b = 0x2028 ∨ b = 0x2029 then [Char.ofNat 92, 'u', '2', '0', '2', hexChar (b % 16)]
  else [c]

/-- The `[]byte` that `json.Marshal` returns, read as text. -/
abbrev JSONBytes := String

/-- `json.Marshal` of a Go string: the escaped characters between two double
quotes; it never fails. -/
def jsonMarshalString (s : String) : JSONBytes × Option GoError :=
  (String.mk ([Char.ofNat 34] ++ s.data.flatMap jsonEscapeChar ++ [Char.ofNat 34]), none)

namespace sia

/-- String prints the uid in hex. -/
def UniqueID.String (uid : UniqueID) : String := hexEncodeToString uid.bytes

/-- MarshalJSON marshals an id as a hex string. -/
def UniqueID.MarshalJSON (uid : UniqueID) : JSONBytes × Option GoError :=
  jsonMarshalString uid.String

/-- A call of one of the host filter modifier functions of hosts.go, with its
arguments. -/
inductive Modifier (Float64 : Type) where
  | AcceptingContracts (accepting : Bool)
  | Online (online : Bool)
  | Benchmarked (benchmarked : Bool)
  | MinAge (age : Nat)
  | MinUptime (minUptime : Float64)
  | MinDuration (minDuration : Nat)
  | MinStorage (minStorage : Nat)
  | MinUploadSpeed (minUploadSpeed : Nat)
  | MinDownloadSpeed (minDownloadSpeed : Nat)
  | MaxStoragePrice (price : Currency)
  | MaxUploadPrice (price : Currency)
  | MaxDownloadPrice (price : Currency)
  | MaxContractPrice (price : Currency)
  | MaxBaseRPCPrice (price : Currency)
  | SectorAccessPrice (price : Currency)
  | SortBy (field : HostSort) (desc : Bool)

/-- The `HostFilter` a modifier call evaluates to. -/
def Modifier.filter {Float64 : Type} (FormatFloat : Float64 → String) :
    Modifier Float64 → HostFilter
  | .AcceptingContracts accepting => HostFilterAcceptingContracts accepting
  | .Online online => HostFilterOnline online
  | .Benchmarked benchmarked => HostFilterBenchmarked benchmarked
  | .MinAge age => HostFilterMinAge age
  | .MinUptime minUptime => HostFilterMinUptime FormatFloat minUptime
  | .MinDuration minDuration => HostFilterMinDuration minDuration
  | .MinStorage minStorage => HostFilterMinStorage minStorage
  | .MinUploadSpeed minUploadSpeed => HostFilterMinUploadSpeed minUploadSpeed
  | .MinDownloadSpeed minDownloadSpeed => HostFilterMinDownloadSpeed minDownloadSpeed
  | .MaxStoragePrice price => HostFilterMaxStoragePrice price
  | .MaxUploadPrice price => HostFilterMaxUploadPrice price
  | .MaxDownloadPrice price => HostFilterMaxDownloadPrice price
  | .MaxContractPrice price => HostFilterMaxContractPrice price
  | .MaxBaseRPCPrice price => HostFilterMaxBaseRPCPrice price
  | .SectorAccessPrice price => HostFilterSectorAccessPrice price
  | .SortBy field desc => HostFilterSort field desc

/-- The key and value pairs the body of a modifier passes to `v.Set`, in the
order of the calls. -/
def Modifier.sets {Float64 : Type} (FormatFloat : Float64 → String) :
    Modifier Float64 → List (String × String)
  | .AcceptingContracts accepting => [(acceptContractsParam, FormatBool accepting)]
  | .Online online => [(onlineParam, FormatBool online)]
  | .Benchmarked benchmarked => [(benchmarkedParam, FormatBool benchmarked)]
  | .MinAge age => [(minAgeParam, FormatUint age)]
  | .MinUptime minUptime => [(minUptimeParam, FormatFloat minUptime)]
  | .MinDuration minDuration => [(minDurationParam, FormatUint minDuration)]
  | .MinStorage minStorage => [(minStorageParam, FormatUint minStorage)]
  | .MinUploadSpeed minUploadSpeed => [(minUploadSpeedParam, FormatUint minUploadSpeed)]
  | .MinDownloadSpeed minDownloadSpeed => [(minDownloadSpeedParam, FormatUint minDownloadSpeed)]
  | .MaxStoragePrice price => [(maxStoragePriceParam, price.String)]
  | .MaxUploadPrice price => [(maxUploadPriceParam, price.String)]
  | .MaxDownloadPrice price => [(maxDownloadPriceParam, price.String)]
  | .MaxContractPrice price => [(maxContractPriceParam, price.String)]
  | .MaxBaseRPCPrice price => [(maxBaseRPCPriceParam, price.String)]
  | .SectorAccessPrice price => [(maxSectorAccessPriceParam, price.String)]
  | .SortBy field desc => [(sortParam, field), (dirParam, if desc then "desc" else "asc")]

/-- The keys a modifier sets. -/
def Modifier.keys {Float64 : Type} (FormatFloat : Float64 → String) (m : Modifier Float64) :
    List String :=
  (m.sets FormatFloat).map Prod.fst

end sia

/-! ## Predicates the statements use -/

/-- The error an endpoint that checks status code and envelope type returns for
one reply of the transport helper: the helper's error when there is one, else
`errors.New(message)` when the status is outside [200, 300) or the type is not
`success`, else `nil`. -/
def statusTypeErr (err : Option GoError) (code : Int) (type message : String) :
    Option GoError :=
  match err with
  | some e => some e
  | none =>
    if code < 200 ∨ code ≥ 300 ∨ type ≠ "success" then some (GoError.errorsNew message) else none

/-- The error an endpoint that checks the status code only returns for one reply
of the transport helper. -/
def statusErr (err : Option GoError) (code : Int) (message : String) : Option GoError :=
  match err with
  | some e => some e
  | none => if code < 200 ∨ code ≥ 300 then some (GoError.errorsNew message) else none

/-- An endpoint result `err` follows the status-and-type rule for a reply with
the given status code, envelope type and envelope message: an error exactly when
the status is outside [200, 300) or the type is not `success`, and then with the
envelope's message. -/
def FailsOnStatusOrType (err : Option GoError) (code : Int) (type message : String) : Prop :=
  (err ≠ none ↔ (code < 200 ∨ code ≥ 300 ∨ type ≠ "success")) ∧
    ∀ e, err = some e → e.Error = message

/-- An endpoint result `err` follows the status-only rule: an error exactly when
the status is outside [200, 300), and then with the envelope's message. -/
def FailsOnStatus (err : Option GoError) (code : Int) (message : String) : Prop :=
  (err ≠ none ↔ (code < 200 ∨ code ≥ 300)) ∧ ∀ e, err = some e → e.Error = message

/-- The outcome `out` of an endpoint run against the transport helper `t`
dispatched exactly one request, and when the reply to that request carries no
transport error, the returned error follows the status-and-type rule for the
status code and the envelope of that reply. `type` and `message` read the
envelope embedded in the response structure. -/
def ChecksStatusAndType {β ρ α : Type} [Inhabited ρ] (t : Transport β ρ)
    (type message : ρ → String) (out : Outcome β α) : Prop :=
  ∃ req, out.calls = [req] ∧
    ((t req default).err = none →
      FailsOnStatusOrType out.err (t req default).code
        (type (t req default).resp) (message (t req default).resp))

/-- The address-list ceiling as the outcome `out` of an endpoint shows it, for a
list of `n` addresses: above 10000 entries the local error and no request; up to
10000 entries exactly one request, and the returned error is the one of the
reply to it (the helper's error, else the status-and-type rule), so none is
raised locally. -/
def RespectsAddressCeiling {β ρ α : Type} [Inhabited ρ] (t : Transport β ρ)
    (type message : ρ → String) (n : Nat) (out : Outcome β α) : Prop :=
  (n > 10000 →
      out.err = some (GoError.errorsNew "maximum of 10000 addresses") ∧ out.calls = []) ∧
    (n ≤ 10000 →
      ∃ req, out.calls = [req] ∧
        out.err = statusTypeErr (t req default).err (t req default).code
          (type (t req default).resp) (message (t req default).resp))

/-- The filter `f` changes a collection by setting the one key `key` to the one
value `value`: after the call `key` carries exactly `value`, and every other key
carries what it carried before. -/
def SetsOnly (f : sia.HostFilter) (key value : String) : Prop :=
  ∀ v : Values, (f v).Get? key = some [value] ∧ ∀ k, k ≠ key → (f v).Get? k = v.Get? k

/-- The outcome `out` carries the zero value of its payload type whenever it
carries an error. -/
def ZeroOnError {β α : Type} [Inhabited α] (out : Outcome β α) : Prop :=
  out.err ≠ none → out.value = default

/-- The outcome `out` of an endpoint whose result is the response structure
itself: one request was dispatched, and the returned value is the structure as
the transport helper left it, with or without an error. -/
def ReturnsResponse {β ρ : Type} [Inhabited ρ] (t : Transport β ρ) (out : Outcome β ρ) : Prop :=
  ∃ req, out.calls = [req] ∧ out.value = (t req default).resp

/-- The outcome `out` of an endpoint that checks status and type carries an error
whenever the reply to its one request is a failure: a transport error, a status
outside [200, 300) or an envelope type other than `success`. -/
def ErrorOnFailure {β ρ α : Type} [Inhabited ρ] (t : Transport β ρ) (type : ρ → String)
    (out : Outcome β α) : Prop :=
  ∃ req, out.calls = [req] ∧
    (((t req default).err ≠ none ∨ (t req default).code < 200 ∨ (t req default).code ≥ 300 ∨
        type (t req default).resp ≠ "success") →
      out.err ≠ none)

/-- The outcome `out` of an endpoint that checks the status only carries an error
whenever the reply to its one request is a transport error or has a status
outside [200, 300). -/
def ErrorOnBadStatus {β ρ α : Type} [Inhabited ρ] (t : Transport β ρ) (out : Outcome β α) :
    Prop :=
  ∃ req, out.calls = [req] ∧
    (((t req default).err ≠ none ∨ (t req default).code < 200 ∨ (t req default).code ≥ 300) →
      out.err ≠ none)

/-- The outcome `out` of an endpoint hands a transport error on unchanged: one
request was dispatched, and when the reply to it carries the error `e`, the
endpoint returns exactly `e`, whatever the status code and the envelope of that
reply are. -/
def PropagatesTransportError {β ρ α : Type} [Inhabited ρ] (t : Transport β ρ)
    (out : Outcome β α) : Prop :=
  ∃ req, out.calls = [req] ∧ ∀ e, (t req default).err = some e → out.err = some e

/-- The outcome `out` of an endpoint copies the payload on success: one request
was dispatched, and when the reply to it carries no transport error, a status in
[200, 300) and an envelope of type `success`, the endpoint returns a nil error
and exactly `payload` of the decoded response structure. -/
def ReturnsOnSuccess {β ρ α : Type} [Inhabited ρ] (t : Transport β ρ) (type : ρ → String)
    (payload : ρ → α) (out : Outcome β α) : Prop :=
  ∃ req, out.calls = [req] ∧
    ((t req default).err = none → 200 ≤ (t req default).code → (t req default).code < 300 →
      type (t req default).resp = "success" →
      out.err = none ∧ out.value = payload (t req default).resp)

/-- A transport helper that answers every request alike: status `code`, error
`err`, and the response structure decoded to `decoded`. -/
def constTransport {β ρ : Type} (code : Int) (err : Option GoError) (decoded : ρ) :
    Transport β ρ :=
  fun _ _ => ⟨code, err, decoded⟩

/-! ## Sample transport helpers, with `Unit` for every payload type declared elsewhere -/

namespace sia

def sampleAverages (code : Int) (err : Option GoError) (type message : String) :
    Transport (Body Unit) (getAveragesResp Unit Unit) :=
  constTransport code err ⟨⟨type, message⟩, (), default, (), ()⟩

def sampleHosts (code : Int) (err : Option GoError) (type message : String) :
    Transport (Body Unit) (getHostsResp Unit) :=
  constTransport code err ⟨⟨type, message⟩, [()]⟩

def sampleHost (code : Int) (err : Option GoError) (type message : String) :
    Transport (Body Unit) (getHostDetailResp Unit) :=
  constTransport code err ⟨⟨type, message⟩, ()⟩

def sampleFees (code : Int) (err : Option GoError) (type message : String) :
    Transport (Body Unit) getFeesResp :=
  constTransport code err ⟨⟨type, message⟩, ⟨1⟩, ⟨2⟩, ⟨"payout", ⟨3⟩⟩⟩

def sampleBalance (code : Int) (err : Option GoError) (type message : String) :
    Transport (Body Unit) (GetTransactionsResp Unit Unit Unit) :=
  constTransport code err ⟨⟨type, message⟩, ⟨5⟩, ⟨0⟩, [()], [], [()], [], ⟨0⟩⟩

def sampleUsed (code : Int) (err : Option GoError) (type message : String) :
    Transport (Body Unit) (getAddressesResp Unit) :=
  constTransport code err ⟨⟨type, message⟩, [()]⟩

def sampleBroadcast (code : Int) (err : Option GoError) (type message : String) :
    Transport (Body Unit) APIResponse :=
  constTransport code err ⟨type, message⟩

end sia

namespace apiclient

def sampleFees (code : Int) (err : Option GoError) (type message : String) :
    Transport Body getFeesResp :=
  constTransport code err ⟨⟨type, message⟩, ⟨1⟩, ⟨2⟩, ⟨3⟩⟩

def sampleBalance (code : Int) (err : Option GoError) (type message : String) :
    Transport Body (GetTransactionsResp Unit Unit) :=
  constTransport code err ⟨⟨type, message⟩, ⟨5⟩, [()], [()], []⟩

def sampleUsed (code : Int) (err : Option GoError) (type message : String) :
    Transport Body (getAddressesResp Unit) :=
  constTransport code err ⟨⟨type, message⟩, [()]⟩

end apiclient

namespace scprime

def sampleConnection (code : Int) (err : Option GoError) (type message : String) :
    Transport Unit (getConnectionResp Nat) :=
  constTransport code err ⟨⟨type, message⟩, 7⟩

end scprime

/-- A sample identifier: the bytes ab cd ef 01 23 45 67 89 00 ff 10 20 30 40 50 60. -/
def sia.sampleUID : sia.UniqueID :=
  ⟨[171, 205, 239, 1, 35, 69, 103, 137, 0, 255, 16, 32, 48, 64, 80, 96], by decide, by decide⟩

/-! # Theorems -/

/-! ## The shape of every endpoint: one request, the error of the reply -/

section shapes
variable {HostConfig AvgHostBenchmark HostDetails AddressUsage SiacoinOutput SiafundOutput
  Transaction TypesTransaction WalletTransaction ConnectionReport β : Type}

theorem sia_GetNetworkAverages_shape [Inhabited HostConfig] [Inhabited AvgHostBenchmark]
    (t : Transport (sia.Body TypesTransaction) (sia.getAveragesResp HostConfig AvgHostBenchmark)) :
    ∃ req, (sia.GetNetworkAverages t).calls = [req] ∧
      (sia.GetNetworkAverages t).err = statusTypeErr (t req default).err (t req default).code
        (t req default).resp.Type_ (t req default).resp.Message ∧
      ((sia.GetNetworkAverages t).err ≠ none → (sia.GetNetworkAverages t).value = default) := by
  refine ⟨⟨MethodGet, "/hosts/network/averages", none⟩, ?_, ?_, ?_⟩ <;>
    simp only [sia.GetNetworkAverages, statusTypeErr] <;> split <;> (try split) <;> simp_all <;> rfl

theorem sia_GetActiveHosts_shape (QueryEscape : String → String)
    (t : Transport (sia.Body TypesTransaction) (sia.getHostsResp HostDetails))
    (page limit : Int) (filters : List sia.HostFilter) :
    ∃ req, (sia.GetActiveHosts QueryEscape t page limit filters).calls = [req] ∧
      (sia.GetActiveHosts QueryEscape t page limit filters).err =
        statusTypeErr (t req default).err (t req default).code
          (t req default).resp.Type_ (t req default).resp.Message ∧
      ((sia.GetActiveHosts QueryEscape t page limit filters).err ≠ none →
        (sia.GetActiveHosts QueryEscape t page limit filters).value = default) := by
  refine ⟨⟨MethodGet, sia.GetActiveHosts.endpoint
      ((sia.GetActiveHosts.values page limit filters).Encode QueryEscape), none⟩, ?_, ?_, ?_⟩ <;>
    simp only [sia.GetActiveHosts, statusTypeErr] <;> split <;> (try split) <;> simp_all <;> rfl

theorem sia_GetHost_shape [Inhabited HostDetails] (PathEscape : String → String)
    (t : Transport (sia.Body TypesTransaction) (sia.getHostDetailResp HostDetails)) (id : String) :
    ∃ req, (sia.GetHost PathEscape t id).calls = [req] ∧
      (sia.GetHost PathEscape t id).err = statusTypeErr (t req default).err (t req default).code
        (t req default).resp.Type_ (t req default).resp.Message ∧
      ((sia.GetHost PathEscape t id).err ≠ none → (sia.GetHost PathEscape t id).value = default) := by
  refine ⟨⟨MethodGet, "/hosts/" ++ PathEscape id, none⟩, ?_, ?_, ?_⟩ <;>
    simp only [sia.GetHost, statusTypeErr] <;> split <;> (try split) <;> simp_all

theorem sia_GetTransactionFees_shape (t : Transport (sia.Body TypesTransaction) sia.getFeesResp) :
    ∃ req, (sia.GetTransactionFees t).calls = [req] ∧
      (sia.GetTransactionFees t).err = statusTypeErr (t req default).err (t req default).code
        (t req default).resp.Type_ (t req default).resp.Message ∧
      ((sia.GetTransactionFees t).err ≠ none → (sia.GetTransactionFees t).value = default) := by
  refine ⟨⟨MethodGet, "/wallet/fees", none⟩, ?_, ?_, ?_⟩ <;>
    simp only [sia.GetTransactionFees, statusTypeErr] <;> split <;> (try split) <;> simp_all <;> rfl

theorem sia_GetAPIFees_shape (t : Transport (sia.Body TypesTransaction) sia.getFeesResp) :
    ∃ req, (sia.GetAPIFees t).calls = [req] ∧
      (sia.GetAPIFees t).err = statusTypeErr (t req default).err (t req default).code
        (t req default).resp.Type_ (t req default).resp.Message ∧
      ((sia.GetAPIFees t).err ≠ none → (sia.GetAPIFees t).value = default) := by
  refine ⟨⟨MethodGet, "/wallet/fees", none⟩, ?_, ?_, ?_⟩ <;>
    simp only [sia.GetAPIFees, statusTypeErr] <;> split <;> (try split) <;> simp_all <;> rfl

theorem sia_FindAddressBalance_shape
    (t : Transport (sia.Body TypesTransaction)
      (sia.GetTransactionsResp SiacoinOutput SiafundOutput Transaction))
    (limit page : Int) (addresses : List String) (h : addresses.length ≤ 10000) :
    ∃ req, (sia.FindAddressBalance t limit page addresses).calls = [req] ∧
      (sia.FindAddressBalance t limit page addresses).err =
        statusTypeErr (t req default).err (t req default).code
          (t req default).resp.Type_ (t req default).resp.Message ∧
      (sia.FindAddressBalance t limit page addresses).value = (t req default).resp := by
  have h2 : ¬ addresses.length > 10000 := by omega
  refine ⟨⟨MethodPost, "/wallet/addresses?limit=" ++ Itoa limit ++ "&page=" ++ Itoa page,
      some (sia.Body.addresses addresses)⟩, ?_, ?_, ?_⟩ <;>
    simp only [sia.FindAddressBalance, statusTypeErr, h2, if_false] <;> split <;> (try split) <;>
    simp_all

theorem sia_FindUsedAddresses_shape
    (t : Transport (sia.Body TypesTransaction) (sia.getAddressesResp AddressUsage))
    (addresses : List String) (h : addresses.length ≤ 10000) :
    ∃ req, (sia.FindUsedAddresses t addresses).calls = [req] ∧
      (sia.FindUsedAddresses t addresses).err =
        statusTypeErr (t req default).err (t req default).code
          (t req default).resp.Type_ (t req default).resp.Message ∧
      ((sia.FindUsedAddresses t addresses).err ≠ none →
        (sia.FindUsedAddresses t addresses).value = default) := by
  have h2 : ¬ addresses.length > 10000 := by omega
  refine ⟨⟨MethodPost, "/wallet/addresses/used", some (sia.Body.addresses addresses)⟩,
      ?_, ?_, ?_⟩ <;>
    simp only [sia.FindUsedAddresses, statusTypeErr, h2, if_false] <;> split <;> (try split) <;>
    simp_all <;> rfl

theorem sia_GetAddressBalance_shape
    (t : Transport (sia.Body TypesTransaction)
      (sia.GetTransactionsResp SiacoinOutput SiafundOutput Transaction))
    (limit page : Int) (address : String) :
    ∃ req, (sia.GetAddressBalance t limit page address).calls = [req] ∧
      (sia.GetAddressBalance t limit page address).err =
        statusTypeErr (t req default).err (t req default).code
          (t req default).resp.Type_ (t req default).resp.Message ∧
      (sia.GetAddressBalance t limit page address).value = (t req default).resp := by
  refine ⟨⟨MethodGet, "/wallet/addresses/" ++ address, none⟩, ?_, ?_, ?_⟩ <;>
    simp only [sia.GetAddressBalance, statusTypeErr] <;> split <;> (try split) <;> simp_all

theorem sia_BroadcastTransactionSet_shape
    (t : Transport (sia.Body TypesTransaction) sia.APIResponse)
    (transactions : List TypesTransaction) :
    ∃ req, (sia.BroadcastTransactionSet t transactions).calls = [req] ∧
      (sia.BroadcastTransactionSet t transactions).err =
        statusTypeErr (t req default).err (t req default).code
          (t req default).resp.Type_ (t req default).resp.Message := by
  refine ⟨⟨MethodPost, "/wallet/broadcast", some (sia.Body.transactions transactions)⟩,
      ?_, ?_⟩ <;>
    simp only [sia.BroadcastTransactionSet, statusTypeErr] <;> split <;> (try split) <;> simp_all

theorem apiclient_GetTransactionFees_shape (t : Transport apiclient.Body apiclient.getFeesResp) :
    ∃ req, (apiclient.GetTransactionFees t).calls = [req] ∧
      (apiclient.GetTransactionFees t).err =
        statusTypeErr (t req default).err (t req default).code
          (t req default).resp.Type_ (t req default).resp.Message ∧
      ((apiclient.GetTransactionFees t).err ≠ none →
        (apiclient.GetTransactionFees t).value = default) := by
  refine ⟨⟨MethodGet, "/wallet/fees", none⟩, ?_, ?_, ?_⟩ <;>
    simp only [apiclient.GetTransactionFees, statusTypeErr] <;> split <;> (try split) <;>
    simp_all <;> rfl

theorem apiclient_FindAddressBalance_shape
    (t : Transport apiclient.Body (apiclient.GetTransactionsResp SiacoinOutput WalletTransaction))
    (limit page : Int) (addresses : List String) (h : addresses.length ≤ 10000) :
    ∃ req, (apiclient.FindAddressBalance t limit page addresses).calls = [req] ∧
      (apiclient.FindAddressBalance t limit page addresses).err =
        statusTypeErr (t req default).err (t req default).code
          (t req default).resp.Type_ (t req default).resp.Message ∧
      (apiclient.FindAddressBalance t limit page addresses).value = (t req default).resp := by
  have h2 : ¬ addresses.length > 10000 := by omega
  refine ⟨⟨MethodPost, "/wallet/addresses?limit=" ++ Itoa limit ++ "&page=" ++ Itoa page,
      some (apiclient.Body.addresses addresses)⟩, ?_, ?_, ?_⟩ <;>
    simp only [apiclient.FindAddressBalance, statusTypeErr, h2, if_false] <;> split <;>
    (try split) <;> simp_all

theorem apiclient_FindUsedAddresses_shape
    (t : Transport apiclient.Body (apiclient.getAddressesResp AddressUsage))
    (addresses : List String) (h : addresses.length ≤ 10000) :
    ∃ req, (apiclient.FindUsedAddresses t addresses).calls = [req] ∧
      (apiclient.FindUsedAddresses t addresses).err =
        statusTypeErr (t req default).err (t req default).code
          (t req default).resp.Type_ (t req default).resp.Message ∧
      ((apiclient.FindUsedAddresses t addresses).err ≠ none →
        (apiclient.FindUsedAddresses t addresses).value = default) := by
  have h2 : ¬ addresses.length > 10000 := by omega
  refine ⟨⟨MethodPost, "/wallet/addresses/used", some (apiclient.Body.addresses addresses)⟩,
      ?_, ?_, ?_⟩ <;>
    simp only [apiclient.FindUsedAddresses, statusTypeErr, h2, if_false] <;> split <;>
    (try split) <;> simp_all <;> rfl

theorem apiclient_GetAddressBalance_shape
    (t : Transport apiclient.Body (apiclient.GetTransactionsResp SiacoinOutput WalletTransaction))
    (limit page : Int) (address : String) :
    ∃ req, (apiclient.GetAddressBalance t limit page address).calls = [req] ∧
      (apiclient.GetAddressBalance t limit page address).err =
        statusTypeErr (t req default).err (t req default).code
          (t req default).resp.Type_ (t req default).resp.Message ∧
      (apiclient.GetAddressBalance t limit page address).value = (t req default).resp := by
  refine ⟨⟨MethodGet, "/wallet/addresses/" ++ address, none⟩, ?_, ?_, ?_⟩ <;>
    simp only [apiclient.GetAddressBalance, statusTypeErr] <;> split <;> (try split) <;> simp_all

theorem scprime_GetHostConnectivity_shape [Inhabited ConnectionReport]
    (PathEscape : String → String)
    (t : Transport β (scprime.getConnectionResp ConnectionReport)) (netaddress : String) :
    ∃ req, (scprime.GetHostConnectivity PathEscape t netaddress).calls = [req] ∧
      (scprime.GetHostConnectivity PathEscape t netaddress).err =
        statusErr (t req default).err (t req default).code (t req default).resp.Message ∧
      ((scprime.GetHostConnectivity PathEscape t netaddress).err ≠ none →
        (scprime.GetHostConnectivity PathEscape t netaddress).value = default) ∧
      ((scprime.GetHostConnectivity PathEscape t netaddress).err = none →
        (scprime.GetHostConnectivity PathEscape t netaddress).value = (t req default).resp.Report) := by
  refine ⟨⟨MethodGet, "/troubleshoot/" ++ PathEscape netaddress, none⟩, ?_, ?_, ?_, ?_⟩ <;>
    simp only [scprime.GetHostConnectivity, statusErr] <;> split <;> (try split) <;> simp_all

end shapes

/-! ## Response classification -/

theorem statusTypeErr_rule (code : Int) (type message : String) :
    FailsOnStatusOrType (statusTypeErr none code type message) code type message := by
  unfold FailsOnStatusOrType statusTypeErr
  by_cases h : code < 200 ∨ code ≥ 300 ∨ type ≠ "success"
  · simp only [h, if_true]
    exact ⟨⟨fun _ => trivial, fun _ => by simp⟩, fun e he => by
      cases he
      rfl⟩
  · simp only [h, if_false]
    exact ⟨⟨fun hn => absurd rfl hn, fun hf => hf.elim⟩, fun e he => by cases he⟩

theorem checksStatusAndType_intro {β ρ α : Type} [Inhabited ρ] (t : Transport β ρ)
    (type message : ρ → String) (out : Outcome β α)
    (h : ∃ req, out.calls = [req] ∧
      out.err = statusTypeErr (t req default).err (t req default).code
        (type (t req default).resp) (message (t req default).resp)) :
    ChecksStatusAndType t type message out := by
  obtain ⟨req, hc, he⟩ := h
  refine ⟨req, hc, fun hnone => ?_⟩
  rw [he, hnone]
  exact statusTypeErr_rule _ _ _

section classification
variable {HostConfig AvgHostBenchmark HostDetails AddressUsage SiacoinOutput SiafundOutput
  Transaction TypesTransaction OldAddressUsage OldSiacoinOutput WalletTransaction : Type}

/-- C1: every endpoint that checks the envelope type dispatches one request and,
for every status code and decoded envelope the transport helper returns for it
without a transport error, returns an error if and only if the status code is
outside [200, 300) or the envelope type is not "success", the message of that
error being the envelope's message. The address lists are within the ceiling of
10000 entries, so that the transport helper is reached. -/
theorem endpoints_fail_on_status_or_type [Inhabited HostConfig] [Inhabited AvgHostBenchmark]
    [Inhabited HostDetails] (PathEscape QueryEscape : String → String)
    (tAverages : Transport (sia.Body TypesTransaction)
      (sia.getAveragesResp HostConfig AvgHostBenchmark))
    (tHosts : Transport (sia.Body TypesTransaction) (sia.getHostsResp HostDetails))
    (tHost : Transport (sia.Body TypesTransaction) (sia.getHostDetailResp HostDetails))
    (tFees : Transport (sia.Body TypesTransaction) sia.getFeesResp)
    (tBalance : Transport (sia.Body TypesTransaction)
      (sia.GetTransactionsResp SiacoinOutput SiafundOutput Transaction))
    (tUsed : Transport (sia.Body TypesTransaction) (sia.getAddressesResp AddressUsage))
    (tBroadcast : Transport (sia.Body TypesTransaction) sia.APIResponse)
    (oFees : Transport apiclient.Body apiclient.getFeesResp)
    (oBalance : Transport apiclient.Body
      (apiclient.GetTransactionsResp OldSiacoinOutput WalletTransaction))
    (oUsed : Transport apiclient.Body (apiclient.getAddressesResp OldAddressUsage))
    (page limit : Int) (filters : List sia.HostFilter) (id address : String)
    (addresses : List String) (transactions : List TypesTransaction)
    (h : addresses.length ≤ 10000) :
    ChecksStatusAndType tAverages (fun r => r.Type_) (fun r => r.Message)
        (sia.GetNetworkAverages tAverages) ∧
      ChecksStatusAndType tHosts (fun r => r.Type_) (fun r => r.Message)
        (sia.GetActiveHosts QueryEscape tHosts page limit filters) ∧
      ChecksStatusAndType tHost (fun r => r.Type_) (fun r => r.Message)
        (sia.GetHost PathEscape tHost id) ∧
      ChecksStatusAndType tFees (fun r => r.Type_) (fun r => r.Message)
        (sia.GetTransactionFees tFees) ∧
      ChecksStatusAndType tFees (fun r => r.Type_) (fun r => r.Message)
        (sia.GetAPIFees tFees) ∧
      ChecksStatusAndType tBalance (fun r => r.Type_) (fun r => r.Message)
        (sia.FindAddressBalance tBalance limit page addresses) ∧
      ChecksStatusAndType tUsed (fun r => r.Type_) (fun r => r.Message)
        (sia.FindUsedAddresses tUsed addresses) ∧
      ChecksStatusAndType tBalance (fun r => r.Type_) (fun r => r.Message)
        (sia.GetAddressBalance tBalance limit page address) ∧
      ChecksStatusAndType tBroadcast (fun r => r.Type_) (fun r => r.Message)
        (sia.BroadcastTransactionSet tBroadcast transactions) ∧
      ChecksStatusAndType oFees (fun r => r.Type_) (fun r => r.Message)
        (apiclient.GetTransactionFees oFees) ∧
      ChecksStatusAndType oBalance (fun r => r.Type_) (fun r => r.Message)
        (apiclient.FindAddressBalance oBalance limit page addresses) ∧
      ChecksStatusAndType oUsed (fun r => r.Type_) (fun r => r.Message)
        (apiclient.FindUsedAddresses oUsed addresses) ∧
      ChecksStatusAndType oBalance (fun r => r.Type_) (fun r => r.Message)
        (apiclient.GetAddressBalance oBalance limit page address) := by
  refine ⟨?_, ?_, ?_, ?_, ?_, ?_, ?_, ?_, ?_, ?_, ?_, ?_, ?_⟩ <;>
    apply checksStatusAndType_intro
  · obtain ⟨req, h1, h2, _⟩ := sia_GetNetworkAverages_shape tAverages
    exact ⟨req, h1, h2⟩
  · obtain ⟨req, h1, h2, _⟩ := sia_GetActiveHosts_shape QueryEscape tHosts page limit filters
    exact ⟨req, h1, h2⟩
  · obtain ⟨req, h1, h2, _⟩ := sia_GetHost_shape PathEscape tHost id
    exact ⟨req, h1, h2⟩
  · obtain ⟨req, h1, h2, _⟩ := sia_GetTransactionFees_shape tFees
    exact ⟨req, h1, h2⟩
  · obtain ⟨req, h1, h2, _⟩ := sia_GetAPIFees_shape tFees
    exact ⟨req, h1, h2⟩
  · obtain ⟨req, h1, h2, _⟩ := sia_FindAddressBalance_shape tBalance limit page addresses h
    exact ⟨req, h1, h2⟩
  · obtain ⟨req, h1, h2, _⟩ := sia_FindUsedAddresses_shape tUsed addresses h
    exact ⟨req, h1, h2⟩
  · obtain ⟨req, h1, h2, _⟩ := sia_GetAddressBalance_shape tBalance limit page address
    exact ⟨req, h1, h2⟩
  · obtain ⟨req, h1, h2⟩ := sia_BroadcastTransactionSet_shape tBroadcast transactions
    exact ⟨req, h1, h2⟩
  · obtain ⟨req, h1, h2, _⟩ := apiclient_GetTransactionFees_shape oFees
    exact ⟨req, h1, h2⟩
  · obtain ⟨req, h1, h2, _⟩ := apiclient_FindAddressBalance_shape oBalance limit page addresses h
    exact ⟨req, h1, h2⟩
  · obtain ⟨req, h1, h2, _⟩ := apiclient_FindUsedAddresses_shape oUsed addresses h
    exact ⟨req, h1, h2⟩
  · obtain ⟨req, h1, h2, _⟩ := apiclient_GetAddressBalance_shape oBalance limit page address
    exact ⟨req, h1, h2⟩

end classification

/-- C1, at a concrete input: every transport helper answers with status 200 and
an envelope of type "error" and message "denied", the address list has one
entry. -/
theorem endpoints_fail_on_status_or_type_witness :
    ["addr"].length ≤ 10000 ∧
      (ChecksStatusAndType (sia.sampleAverages 200 none "error" "denied")
          (fun r => r.Type_) (fun r => r.Message)
          (sia.GetNetworkAverages (sia.sampleAverages 200 none "error" "denied")) ∧
        ChecksStatusAndType (sia.sampleHosts 200 none "error" "denied")
          (fun r => r.Type_) (fun r => r.Message)
          (sia.GetActiveHosts id (sia.sampleHosts 200 none "error" "denied") 0 10 []) ∧
        ChecksStatusAndType (sia.sampleHost 200 none "error" "denied")
          (fun r => r.Type_) (fun r => r.Message)
          (sia.GetHost id (sia.sampleHost 200 none "error" "denied") "host") ∧
        ChecksStatusAndType (sia.sampleFees 200 none "error" "denied")
          (fun r => r.Type_) (fun r => r.Message)
          (sia.GetTransactionFees (sia.sampleFees 200 none "error" "denied")) ∧
        ChecksStatusAndType (sia.sampleFees 200 none "error" "denied")
          (fun r => r.Type_) (fun r => r.Message)
          (sia.GetAPIFees (sia.sampleFees 200 none "error" "denied")) ∧
        ChecksStatusAndType (sia.sampleBalance 200 none "error" "denied")
          (fun r => r.Type_) (fun r => r.Message)
          (sia.FindAddressBalance (sia.sampleBalance 200 none "error" "denied") 10 0 ["addr"]) ∧
        ChecksStatusAndType (sia.sampleUsed 200 none "error" "denied")
          (fun r => r.Type_) (fun r => r.Message)
          (sia.FindUsedAddresses (sia.sampleUsed 200 none "error" "denied") ["addr"]) ∧
        ChecksStatusAndType (sia.sampleBalance 200 none "error" "denied")
          (fun r => r.Type_) (fun r => r.Message)
          (sia.GetAddressBalance (sia.sampleBalance 200 none "error" "denied") 10 0 "one") ∧
        ChecksStatusAndType (sia.sampleBroadcast 200 none "error" "denied")
          (fun r => r.Type_) (fun r => r.Message)
          (sia.BroadcastTransactionSet (sia.sampleBroadcast 200 none "error" "denied") [()]) ∧
        ChecksStatusAndType (apiclient.sampleFees 200 none "error" "denied")
          (fun r => r.Type_) (fun r => r.Message)
          (apiclient.GetTransactionFees (apiclient.sampleFees 200 none "error" "denied")) ∧
        ChecksStatusAndType (apiclient.sampleBalance 200 none "error" "denied")
          (fun r => r.Type_) (fun r => r.Message)
          (apiclient.FindAddressBalance (apiclient.sampleBalance 200 none "error" "denied")
            10 0 ["addr"]) ∧
        ChecksStatusAndType (apiclient.sampleUsed 200 none "error" "denied")
          (fun r => r.Type_) (fun r => r.Message)
          (apiclient.FindUsedAddresses (apiclient.sampleUsed 200 none "error" "denied")
            ["addr"]) ∧
        ChecksStatusAndType (apiclient.sampleBalance 200 none "error" "denied")
          (fun r => r.Type_) (fun r => r.Message)
          (apiclient.GetAddressBalance (apiclient.sampleBalance 200 none "error" "denied")
            10 0 "one")) :=
  ⟨by decide,
    endpoints_fail_on_status_or_type id id _ _ _ _ _ _ _ _ _ _ 0 10 [] "host" "one" ["addr"] [()]
      (by decide)⟩

/-- Status 200 with an envelope of type "error" is a failure whose message is the
envelope's message: `GetHost` and `BroadcastTransactionSet` evaluated on such a
reply. -/
theorem status_200_type_error_is_failure :
    (sia.GetHost id (sia.sampleHost 200 none "error" "denied") "host").err =
        some (GoError.errorsNew "denied") ∧
      (sia.BroadcastTransactionSet (sia.sampleBroadcast 200 none "error" "denied") [()]).err =
        some (GoError.errorsNew "denied") ∧
      (sia.GetHost id (sia.sampleHost 200 none "success" "") "host").err = none := by
  decide

theorem statusErr_rule (code : Int) (message : String) :
    FailsOnStatus (statusErr none code message) code message := by
  unfold FailsOnStatus statusErr
  by_cases h : code < 200 ∨ code ≥ 300
  · simp only [h, if_true]
    exact ⟨⟨fun _ => trivial, fun _ => by simp⟩, fun e he => by
      cases he
      rfl⟩
  · simp only [h, if_false]
    exact ⟨⟨fun hn => absurd rfl hn, fun hf => hf.elim⟩, fun e he => by cases he⟩

/-- C2: `GetHostConnectivity` classifies by status code only. For every
netaddress it dispatches exactly one request, and for every reply the transport
helper gives to it without a transport error, the call returns an error if and
only if the status code is outside [200, 300), the message of that error being
the envelope's message; a 404 reply is a failure; a 200 reply whose envelope type
is "error" is a success that returns the envelope's report with a nil error. -/
theorem GetHostConnectivity_status_only {β ConnectionReport : Type} [Inhabited ConnectionReport]
    (PathEscape : String → String)
    (t : Transport β (scprime.getConnectionResp ConnectionReport)) (netaddress : String) :
    ∃ req, (scprime.GetHostConnectivity PathEscape t netaddress).calls = [req] ∧
      ((t req default).err = none →
        FailsOnStatus (scprime.GetHostConnectivity PathEscape t netaddress).err
            (t req default).code (t req default).resp.Message ∧
          ((t req default).code = 404 →
            (scprime.GetHostConnectivity PathEscape t netaddress).err =
              some (GoError.errorsNew (t req default).resp.Message)) ∧
          ((t req default).code = 200 → (t req default).resp.Type_ = "error" →
            (scprime.GetHostConnectivity PathEscape t netaddress).err = none ∧
              (scprime.GetHostConnectivity PathEscape t netaddress).value =
                (t req default).resp.Report)) := by
  obtain ⟨req, hc, he, _, hv⟩ := scprime_GetHostConnectivity_shape PathEscape t netaddress
  refine ⟨req, hc, fun herr => ?_⟩
  rw [herr] at he
  refine ⟨?_, ?_, ?_⟩
  · rw [he]
    exact statusErr_rule _ _
  · intro h404
    rw [he, h404]
    rfl
  · intro h200 _
    have hnone : (scprime.GetHostConnectivity PathEscape t netaddress).err = none := by
      rw [he, h200]
      rfl
    exact ⟨hnone, hv hnone⟩

/-- C2, at two concrete inputs: a reply with status 200 and an envelope of type
"error" gives the report 7 of the envelope and no error; a reply with status 404
and an envelope of type "success" gives an error with the envelope's message. -/
theorem GetHostConnectivity_status_only_witness :
    ((scprime.GetHostConnectivity id (scprime.sampleConnection 200 none "error" "unreachable")
          "host:9982").err = none ∧
        (scprime.GetHostConnectivity id (scprime.sampleConnection 200 none "error" "unreachable")
          "host:9982").value = 7) ∧
      (scprime.GetHostConnectivity id (scprime.sampleConnection 404 none "success" "not found")
        "host:9982").err = some (GoError.errorsNew "not found") := by
  obtain ⟨_, _, h200⟩ := GetHostConnectivity_status_only id
    (scprime.sampleConnection 200 none "error" "unreachable") "host:9982"
  obtain ⟨_, _, h404⟩ := GetHostConnectivity_status_only id
    (scprime.sampleConnection 404 none "success" "not found") "host:9982"
  exact ⟨(h200 rfl).2.2 rfl rfl, (h404 rfl).2.1 rfl⟩

/-- A 404 reply on the troubleshoot endpoint is a failure with the envelope's
message, whatever the envelope type, and the one request is a GET of the
troubleshoot path. -/
theorem GetHostConnectivity_404_is_failure :
    (scprime.GetHostConnectivity id (scprime.sampleConnection 404 none "success" "not found")
        "host:9982").err = some (GoError.errorsNew "not found") ∧
      ((scprime.GetHostConnectivity id (scprime.sampleConnection 404 none "success" "not found")
        "host:9982").calls.map fun r => (r.method, r.url, r.body.isNone)) =
        [("GET", "/troubleshoot/host:9982", true)] := by
  decide

/-! ## The ceiling of 10000 addresses -/

section ceiling
variable {AddressUsage SiacoinOutput SiafundOutput Transaction TypesTransaction
  OldAddressUsage OldSiacoinOutput WalletTransaction : Type}

theorem sia_FindAddressBalance_over
    (t : Transport (sia.Body TypesTransaction)
      (sia.GetTransactionsResp SiacoinOutput SiafundOutput Transaction))
    (limit page : Int) (addresses : List String) (h : addresses.length > 10000) :
    sia.FindAddressBalance t limit page addresses =
      ⟨default, some (GoError.errorsNew "maximum of 10000 addresses"), []⟩ := by
  simp only [sia.FindAddressBalance, h, if_true]

theorem sia_FindUsedAddresses_over
    (t : Transport (sia.Body TypesTransaction) (sia.getAddressesResp AddressUsage))
    (addresses : List String) (h : addresses.length > 10000) :
    sia.FindUsedAddresses t addresses =
      ⟨[], some (GoError.errorsNew "maximum of 10000 addresses"), []⟩ := by
  simp only [sia.FindUsedAddresses, h, if_true]

theorem apiclient_FindAddressBalance_over
    (t : Transport apiclient.Body (apiclient.GetTransactionsResp SiacoinOutput WalletTransaction))
    (limit page : Int) (addresses : List String) (h : addresses.length > 10000) :
    apiclient.FindAddressBalance t limit page addresses =
      ⟨default, some (GoError.errorsNew "maximum of 10000 addresses"), []⟩ := by
  simp only [apiclient.FindAddressBalance, h, if_true]

theorem apiclient_FindUsedAddresses_over
    (t : Transport apiclient.Body (apiclient.getAddressesResp AddressUsage))
    (addresses : List String) (h : addresses.length > 10000) :
    apiclient.FindUsedAddresses t addresses =
      ⟨[], some (GoError.errorsNew "maximum of 10000 addresses"), []⟩ := by
  simp only [apiclient.FindUsedAddresses, h, if_true]

/-- C3: `FindAddressBalance` and `FindUsedAddresses` of both client generations,
for every address list: with more than 10000 entries the call returns the local
error "maximum of 10000 addresses" and dispatches no request to the transport
helper; with at most 10000 entries (exactly 10000 included) it dispatches exactly
one request and its error is the one of the reply, none being raised locally. -/
theorem address_ceiling
    (tBalance : Transport (sia.Body TypesTransaction)
      (sia.GetTransactionsResp SiacoinOutput SiafundOutput Transaction))
    (tUsed : Transport (sia.Body TypesTransaction) (sia.getAddressesResp AddressUsage))
    (oBalance : Transport apiclient.Body
      (apiclient.GetTransactionsResp OldSiacoinOutput WalletTransaction))
    (oUsed : Transport apiclient.Body (apiclient.getAddressesResp OldAddressUsage))
    (limit page : Int) (addresses : List String) :
    RespectsAddressCeiling tBalance (fun r => r.Type_) (fun r => r.Message) addresses.length
        (sia.FindAddressBalance tBalance limit page addresses) ∧
      RespectsAddressCeiling tUsed (fun r => r.Type_) (fun r => r.Message) addresses.length
        (sia.FindUsedAddresses tUsed addresses) ∧
      RespectsAddressCeiling oBalance (fun r => r.Type_) (fun r => r.Message) addresses.length
        (apiclient.FindAddressBalance oBalance limit page addresses) ∧
      RespectsAddressCeiling oUsed (fun r => r.Type_) (fun r => r.Message) addresses.length
        (apiclient.FindUsedAddresses oUsed addresses) := by
  refine ⟨⟨fun h => ?_, fun h => ?_⟩, ⟨fun h => ?_, fun h => ?_⟩, ⟨fun h => ?_, fun h => ?_⟩,
    ⟨fun h => ?_, fun h => ?_⟩⟩
  · rw [sia_FindAddressBalance_over tBalance limit page addresses h]
    exact ⟨rfl, rfl⟩
  · obtain ⟨req, h1, h2, _⟩ := sia_FindAddressBalance_shape tBalance limit page addresses h
    exact ⟨req, h1, h2⟩
  · rw [sia_FindUsedAddresses_over tUsed addresses h]
    exact ⟨rfl, rfl⟩
  · obtain ⟨req, h1, h2, _⟩ := sia_FindUsedAddresses_shape tUsed addresses h
    exact ⟨req, h1, h2⟩
  · rw [apiclient_FindAddressBalance_over oBalance limit page addresses h]
    exact ⟨rfl, rfl⟩
  · obtain ⟨req, h1, h2, _⟩ := apiclient_FindAddressBalance_shape oBalance limit page addresses h
    exact ⟨req, h1, h2⟩
  · rw [apiclient_FindUsedAddresses_over oUsed addresses h]
    exact ⟨rfl, rfl⟩
  · obtain ⟨req, h1, h2, _⟩ := apiclient_FindUsedAddresses_shape oUsed addresses h
    exact ⟨req, h1, h2⟩

end ceiling

/-- C3, at concrete inputs: a list of 10001 addresses gives the local error and
no request; a list of exactly 10000 addresses, with a transport helper that
answers 200 and "success", gives one request and no error. -/
theorem address_ceiling_witness :
    ((List.replicate 10001 "addr").length > 10000 ∧
        (sia.FindAddressBalance (sia.sampleBalance 200 none "success" "") 10 0
            (List.replicate 10001 "addr")).err =
          some (GoError.errorsNew "maximum of 10000 addresses") ∧
        (sia.FindAddressBalance (sia.sampleBalance 200 none "success" "") 10 0
            (List.replicate 10001 "addr")).calls = []) ∧
      ((List.replicate 10000 "addr").length ≤ 10000 ∧
        (sia.FindAddressBalance (sia.sampleBalance 200 none "success" "") 10 0
            (List.replicate 10000 "addr")).calls.length = 1 ∧
        (sia.FindAddressBalance (sia.sampleBalance 200 none "success" "") 10 0
            (List.replicate 10000 "addr")).err = none) := by
  have over : (List.replicate 10001 "addr").length > 10000 := by
    rw [List.length_replicate]
    decide
  have within : (List.replicate 10000 "addr").length ≤ 10000 := by
    rw [List.length_replicate]
  refine ⟨⟨over, ?_⟩, ⟨within, ?_⟩⟩
  · exact (address_ceiling (sia.sampleBalance 200 none "success" "")
      (sia.sampleUsed 200 none "success" "") (apiclient.sampleBalance 200 none "success" "")
      (apiclient.sampleUsed 200 none "success" "") 10 0 (List.replicate 10001 "addr")).1.1 over
  · obtain ⟨req, h1, h2⟩ := (address_ceiling (sia.sampleBalance 200 none "success" "")
      (sia.sampleUsed 200 none "success" "") (apiclient.sampleBalance 200 none "success" "")
      (apiclient.sampleUsed 200 none "success" "") 10 0 (List.replicate 10000 "addr")).1.2 within
    rw [h1, h2]
    exact ⟨rfl, rfl⟩

/-! ## url.Values: lookup, keys, Set and Add -/

namespace Values

theorem Get?_Set (v : Values) (key value k : String) :
    (v.Set key value).Get? k = if k = key then some [value] else v.Get? k := by
  induction v with
  | nil =>
    by_cases h : k = key
    · simp [Set, Get?, h]
    · have h2 : ¬ key = k := fun e => h e.symm
      simp [Set, Get?, h, h2]
  | cons e rest ih =>
    obtain ⟨k0, vs⟩ := e
    by_cases h0 : k0 = key
    · by_cases h : k = key
      · simp [Set, Get?, h0, h]
      · have h2 : ¬ key = k := fun e => h e.symm
        simp [Set, Get?, h0, h, h2]
    · by_cases h : k = key
      · subst h
        simp only [Set, h0, if_false, Get?, if_true]
        rw [ih]
        simp
      · simp only [Set, h0, if_false, Get?, h]
        rw [ih]
        simp [h]

theorem Get?_Add (v : Values) (key value k : String) :
    (v.Add key value).Get? k =
      if k = key then some ((v.Get? key).getD [] ++ [value]) else v.Get? k := by
  induction v with
  | nil =>
    by_cases h : k = key
    · simp [Add, Get?, h]
    · have h2 : ¬ key = k := fun e => h e.symm
      simp [Add, Get?, h, h2]
  | cons e rest ih =>
    obtain ⟨k0, vs⟩ := e
    by_cases h0 : k0 = key
    · by_cases h : k = key
      · simp [Add, Get?, h0, h]
      · have h2 : ¬ key = k := fun e => h e.symm
        simp [Add, Get?, h0, h, h2]
    · by_cases h : k = key
      · subst h
        simp only [Add, h0, if_false, Get?, if_true]
        rw [ih]
        simp
      · simp only [Add, h0, if_false, Get?, h]
        rw [ih]
        simp [h]

theorem keys_Set (v : Values) (key value : String) :
    (v.Set key value).keys = if key ∈ v.keys then v.keys else v.keys ++ [key] := by
  induction v with
  | nil => simp [Set, keys]
  | cons e rest ih =>
    obtain ⟨k0, vs⟩ := e
    by_cases h0 : k0 = key
    · simp [Set, keys, h0]
    · have h2 : ¬ key = k0 := fun e => h0 e.symm
      simp only [keys] at ih
      simp only [Set, h0, if_false, keys, List.map_cons, List.mem_cons, h2, false_or, ih]
      split <;> simp

theorem keys_Add (v : Values) (key value : String) :
    (v.Add key value).keys = if key ∈ v.keys then v.keys else v.keys ++ [key] := by
  induction v with
  | nil => simp [Add, keys]
  | cons e rest ih =>
    obtain ⟨k0, vs⟩ := e
    by_cases h0 : k0 = key
    · simp [Add, keys, h0]
    · have h2 : ¬ key = k0 := fun e => h0 e.symm
      simp only [keys] at ih
      simp only [Add, h0, if_false, keys, List.map_cons, List.mem_cons, h2, false_or, ih]
      split <;> simp

theorem Get?_eq_none_iff (v : Values) (k : String) : v.Get? k = none ↔ k ∉ v.keys := by
  induction v with
  | nil => simp [Get?, keys]
  | cons e rest ih =>
    obtain ⟨k0, vs⟩ := e
    by_cases h0 : k0 = k
    · simp [Get?, keys, h0]
    · have h2 : ¬ k = k0 := fun e => h0 e.symm
      simp only [keys] at ih
      simp [Get?, keys, h0, h2, ih]

theorem mem_keys_Set (v : Values) (key value k : String) :
    k ∈ (v.Set key value).keys ↔ k = key ∨ k ∈ v.keys := by
  rw [keys_Set]
  split
  · constructor
    · exact fun h => Or.inr h
    · rintro (h | h)
      · subst h
        assumption
      · exact h
  · simp [or_comm]

theorem mem_keys_Add (v : Values) (key value k : String) :
    k ∈ (v.Add key value).keys ↔ k = key ∨ k ∈ v.keys := by
  rw [keys_Add]
  split
  · constructor
    · exact fun h => Or.inr h
    · rintro (h | h)
      · subst h
        assumption
      · exact h
  · simp [or_comm]

theorem nodup_keys_Set (v : Values) (key value : String) (h : v.keys.Nodup) :
    (v.Set key value).keys.Nodup := by
  rw [keys_Set]
  split
  · exact h
  · rename_i hk
    exact List.Nodup.append h (List.nodup_singleton key) (by
      intro a ha hb
      rw [List.mem_singleton] at hb
      subst hb
      exact hk ha)

theorem nodup_keys_Add (v : Values) (key value : String) (h : v.keys.Nodup) :
    (v.Add key value).keys.Nodup := by
  rw [keys_Add]
  split
  · exact h
  · rename_i hk
    exact List.Nodup.append h (List.nodup_singleton key) (by
      intro a ha hb
      rw [List.mem_singleton] at hb
      subst hb
      exact hk ha)

end Values

/-! ## The host filter modifiers on the collection -/

namespace sia

section modifiers
variable {Float64 : Type} (FormatFloat : Float64 → String)

theorem Modifier.filter_eq_sets (m : Modifier Float64) (v : Values) :
    m.filter FormatFloat v = (m.sets FormatFloat).foldl (fun w p => Values.Set w p.1 p.2) v := by
  cases m <;> try rfl
  case SortBy field desc => cases desc <;> rfl

theorem foldl_Set_Get?_of_not_mem (sets : List (String × String)) (v : Values) (k : String)
    (h : k ∉ sets.map Prod.fst) :
    (sets.foldl (fun w p => Values.Set w p.1 p.2) v).Get? k = v.Get? k := by
  induction sets generalizing v with
  | nil => rfl
  | cons p rest ih =>
    simp only [List.map_cons, List.mem_cons, not_or] at h
    simp only [List.foldl_cons]
    rw [ih _ h.2, Values.Get?_Set, if_neg h.1]

theorem foldl_Set_Get?_of_mem (sets : List (String × String)) (v : Values) (k x : String)
    (hn : (sets.map Prod.fst).Nodup) (h : (k, x) ∈ sets) :
    (sets.foldl (fun w p => Values.Set w p.1 p.2) v).Get? k = some [x] := by
  induction sets generalizing v with
  | nil => cases h
  | cons p rest ih =>
    simp only [List.map_cons, List.nodup_cons] at hn
    simp only [List.foldl_cons]
    rcases List.mem_cons.mp h with h | h
    · subst h
      rw [foldl_Set_Get?_of_not_mem rest _ _ hn.1, Values.Get?_Set, if_pos rfl]
    · exact ih _ hn.2 h

theorem foldl_Set_mem_keys (sets : List (String × String)) (v : Values) (k : String) :
    k ∈ (sets.foldl (fun w p => Values.Set w p.1 p.2) v).keys ↔
      k ∈ sets.map Prod.fst ∨ k ∈ v.keys := by
  induction sets generalizing v with
  | nil => simp
  | cons p rest ih =>
    simp only [List.foldl_cons, List.map_cons, List.mem_cons]
    rw [ih, Values.mem_keys_Set]
    tauto

theorem foldl_Set_nodup_keys (sets : List (String × String)) (v : Values) (h : v.keys.Nodup) :
    (sets.foldl (fun w p => Values.Set w p.1 p.2) v).keys.Nodup := by
  induction sets generalizing v with
  | nil => exact h
  | cons p rest ih =>
    simp only [List.foldl_cons]
    exact ih _ (Values.nodup_keys_Set v p.1 p.2 h)

theorem foldl_Set_single (sets : List (String × String)) (v : Values)
    (h : ∀ k vs, v.Get? k = some vs → vs.length = 1) :
    ∀ k vs, (sets.foldl (fun w p => Values.Set w p.1 p.2) v).Get? k = some vs →
      vs.length = 1 := by
  induction sets generalizing v with
  | nil => exact h
  | cons p rest ih =>
    simp only [List.foldl_cons]
    apply ih
    intro k vs hk
    rw [Values.Get?_Set] at hk
    split at hk
    · cases hk
      rfl
    · exact h k vs hk

theorem Modifier.nodup_keys (m : Modifier Float64) : (m.keys FormatFloat).Nodup := by
  cases m <;> simp [Modifier.keys, Modifier.sets]
  all_goals decide

theorem Modifier.filter_Get?_of_mem (m : Modifier Float64) (v : Values) (k x : String)
    (h : (k, x) ∈ m.sets FormatFloat) : (m.filter FormatFloat v).Get? k = some [x] := by
  rw [Modifier.filter_eq_sets]
  exact foldl_Set_Get?_of_mem _ v k x (Modifier.nodup_keys FormatFloat m) h

theorem Modifier.filter_Get?_of_not_mem (m : Modifier Float64) (v : Values) (k : String)
    (h : k ∉ m.keys FormatFloat) : (m.filter FormatFloat v).Get? k = v.Get? k := by
  rw [Modifier.filter_eq_sets]
  exact foldl_Set_Get?_of_not_mem _ v k h

theorem Modifier.mem_keys_filter (m : Modifier Float64) (v : Values) (k : String) :
    k ∈ (m.filter FormatFloat v).keys ↔ k ∈ m.keys FormatFloat ∨ k ∈ v.keys := by
  rw [Modifier.filter_eq_sets]
  exact foldl_Set_mem_keys _ v k

theorem Modifier.page_limit_not_mem_keys (m : Modifier Float64) :
    "page" ∉ m.keys FormatFloat ∧ "limit" ∉ m.keys FormatFloat := by
  cases m <;> simp [Modifier.keys, Modifier.sets]
  all_goals decide

end modifiers

end sia

/-! ## The collection GetActiveHosts builds -/

namespace sia

section collection
variable {Float64 : Type} (FormatFloat : Float64 → String)

theorem filters_mem_keys (ms : List (Modifier Float64)) (v : Values) (k : String) :
    k ∈ ((ms.map (Modifier.filter FormatFloat)).foldl (fun values f => f values) v).keys ↔
      (∃ m ∈ ms, k ∈ m.keys FormatFloat) ∨ k ∈ v.keys := by
  induction ms generalizing v with
  | nil => simp
  | cons m rest ih =>
    simp only [List.map_cons, List.foldl_cons]
    rw [ih, Modifier.mem_keys_filter]
    constructor
    · rintro (⟨m', hm', hk⟩ | hk | hk)
      · exact Or.inl ⟨m', List.mem_cons_of_mem _ hm', hk⟩
      · exact Or.inl ⟨m, List.mem_cons_self _ _, hk⟩
      · exact Or.inr hk
    · rintro (⟨m', hm', hk⟩ | hk)
      · rcases List.mem_cons.mp hm' with h | h
        · subst h
          exact Or.inr (Or.inl hk)
        · exact Or.inl ⟨m', h, hk⟩
      · exact Or.inr (Or.inr hk)

theorem filters_nodup_keys (ms : List (Modifier Float64)) (v : Values) (h : v.keys.Nodup) :
    ((ms.map (Modifier.filter FormatFloat)).foldl (fun values f => f values) v).keys.Nodup := by
  induction ms generalizing v with
  | nil => exact h
  | cons m rest ih =>
    simp only [List.map_cons, List.foldl_cons]
    apply ih
    rw [Modifier.filter_eq_sets]
    exact foldl_Set_nodup_keys _ v h

theorem filters_single (ms : List (Modifier Float64)) (v : Values)
    (h : ∀ k vs, v.Get? k = some vs → vs.length = 1) :
    ∀ k vs,
      ((ms.map (Modifier.filter FormatFloat)).foldl (fun values f => f values) v).Get? k =
        some vs → vs.length = 1 := by
  induction ms generalizing v with
  | nil => exact h
  | cons m rest ih =>
    simp only [List.map_cons, List.foldl_cons]
    apply ih
    rw [Modifier.filter_eq_sets]
    exact foldl_Set_single _ v h

theorem filters_Get?_of_not_mem (ms : List (Modifier Float64)) (v : Values) (k : String)
    (h : ∀ m ∈ ms, k ∉ m.keys FormatFloat) :
    ((ms.map (Modifier.filter FormatFloat)).foldl (fun values f => f values) v).Get? k =
      v.Get? k := by
  induction ms generalizing v with
  | nil => rfl
  | cons m rest ih =>
    simp only [List.map_cons, List.foldl_cons]
    rw [ih _ (fun m' hm' => h m' (List.mem_cons_of_mem _ hm')),
      Modifier.filter_Get?_of_not_mem FormatFloat m v k (h m (List.mem_cons_self _ _))]

theorem filters_page_limit_absent (ms : List (Modifier Float64)) :
    Values.Get? ((ms.map (Modifier.filter FormatFloat)).foldl (fun values f => f values) [])
        "page" = none ∧
      Values.Get? ((ms.map (Modifier.filter FormatFloat)).foldl (fun values f => f values) [])
        "limit" = none := by
  constructor
  · rw [filters_Get?_of_not_mem FormatFloat ms [] "page"
      (fun m _ => (Modifier.page_limit_not_mem_keys FormatFloat m).1)]
    rfl
  · rw [filters_Get?_of_not_mem FormatFloat ms [] "limit"
      (fun m _ => (Modifier.page_limit_not_mem_keys FormatFloat m).2)]
    rfl

theorem values_Get? (page limit : Int) (ms : List (Modifier Float64)) (k : String) :
    (GetActiveHosts.values page limit (ms.map (Modifier.filter FormatFloat))).Get? k =
      if k = "limit" then some [Itoa (if limit < 0 ∨ limit > 500 then 500 else limit)]
      else if k = "page" then some [Itoa (if page < 0 then 0 else page)]
      else Values.Get?
        ((ms.map (Modifier.filter FormatFloat)).foldl (fun values f => f values) []) k := by
  obtain ⟨hp, hl⟩ := filters_page_limit_absent FormatFloat ms
  simp only [GetActiveHosts.values]
  rw [Values.Get?_Add]
  by_cases h1 : k = "limit"
  · rw [if_pos h1, if_pos h1, Values.Get?_Add, if_neg (by decide), hl]
    rfl
  · rw [if_neg h1, if_neg h1, Values.Get?_Add]
    by_cases h2 : k = "page"
    · rw [if_pos h2, if_pos h2, hp]
      rfl
    · rw [if_neg h2, if_neg h2]

end collection

end sia

/-! ## The pairs of the query string -/

namespace Values

theorem insertByKey_perm (e : String × List String) (v : Values) :
    List.Perm (insertByKey e v) (e :: v) := by
  induction v with
  | nil => exact List.Perm.refl _
  | cons x rest ih =>
    simp only [insertByKey]
    split
    · exact List.Perm.refl _
    · exact (List.Perm.cons x ih).trans (List.Perm.swap e x rest)

theorem sortedByKey_perm (v : Values) : List.Perm (sortedByKey v) v := by
  induction v with
  | nil => exact List.Perm.refl _
  | cons x rest ih =>
    simp only [sortedByKey, List.foldr_cons]
    exact (insertByKey_perm x _).trans (List.Perm.cons x ih)

theorem Get?_of_mem (v : Values) (k : String) (vs : List String) (hn : v.keys.Nodup)
    (h : (k, vs) ∈ v) : v.Get? k = some vs := by
  induction v with
  | nil => cases h
  | cons e rest ih =>
    obtain ⟨k0, vs0⟩ := e
    simp only [keys, List.map_cons, List.nodup_cons] at hn
    rcases List.mem_cons.mp h with h | h
    · cases h
      simp [Get?]
    · have hne : k0 ≠ k := by
        intro e
        subst e
        exact hn.1 (List.mem_map.mpr ⟨(k0, vs), h, rfl⟩)
      simp only [Get?, hne, if_false]
      exact ih hn.2 h

theorem map_fst_flatMap_of_single (l : Values) (h : ∀ e ∈ l, e.2.length = 1) :
    (l.flatMap fun e => e.2.map fun x => (e.1, x)).map Prod.fst = l.map Prod.fst := by
  induction l with
  | nil => rfl
  | cons e rest ih =>
    obtain ⟨k, vs⟩ := e
    have hvs : vs.length = 1 := h (k, vs) (List.mem_cons_self _ _)
    obtain ⟨x, rfl⟩ := List.length_eq_one.mp hvs
    simp only [List.flatMap_cons, List.map_cons, List.map_nil, List.singleton_append]
    rw [ih (fun e he => h e (List.mem_cons_of_mem _ he))]

theorem pairs_keys_perm (v : Values) (hn : v.keys.Nodup)
    (h : ∀ k vs, v.Get? k = some vs → vs.length = 1) :
    List.Perm ((pairs v).map Prod.fst) v.keys := by
  have hs : ∀ e ∈ sortedByKey v, e.2.length = 1 := by
    intro e he
    have hv : e ∈ v := (sortedByKey_perm v).mem_iff.mp he
    exact h e.1 e.2 (Get?_of_mem v e.1 e.2 hn hv)
  simp only [pairs]
  rw [map_fst_flatMap_of_single _ hs]
  exact (sortedByKey_perm v).map Prod.fst

end Values

namespace sia

theorem values_mem_keys {Float64 : Type} (FormatFloat : Float64 → String) (page limit : Int)
    (ms : List (Modifier Float64)) (k : String) :
    k ∈ (GetActiveHosts.values page limit (ms.map (Modifier.filter FormatFloat))).keys ↔
      (∃ m ∈ ms, k ∈ m.keys FormatFloat) ∨ k = "page" ∨ k = "limit" := by
  simp only [GetActiveHosts.values]
  rw [Values.mem_keys_Add, Values.mem_keys_Add, filters_mem_keys]
  simp only [Values.keys, List.map_nil, List.not_mem_nil, or_false]
  constructor
  · rintro (h | h | h)
    · exact Or.inr (Or.inr h)
    · exact Or.inr (Or.inl h)
    · exact Or.inl h
  · rintro (h | h | h)
    · exact Or.inr (Or.inr h)
    · exact Or.inr (Or.inl h)
    · exact Or.inl h

theorem values_nodup_keys {Float64 : Type} (FormatFloat : Float64 → String) (page limit : Int)
    (ms : List (Modifier Float64)) :
    (GetActiveHosts.values page limit (ms.map (Modifier.filter FormatFloat))).keys.Nodup := by
  simp only [GetActiveHosts.values]
  exact Values.nodup_keys_Add _ _ _ (Values.nodup_keys_Add _ _ _
    (filters_nodup_keys FormatFloat ms [] List.nodup_nil))

theorem values_single {Float64 : Type} (FormatFloat : Float64 → String) (page limit : Int)
    (ms : List (Modifier Float64)) (k : String) (vs : List String)
    (h : (GetActiveHosts.values page limit (ms.map (Modifier.filter FormatFloat))).Get? k =
      some vs) : vs.length = 1 := by
  rw [values_Get?] at h
  split at h
  · cases h
    rfl
  · split at h
    · cases h
      rfl
    · exact filters_single FormatFloat ms [] (fun k vs hk => by cases hk) k vs h

end sia

/-- C5: for every list of the provided host filter modifiers and every page and
limit, the key set of the collection `GetActiveHosts` builds is exactly the union
of the keys set by the applied modifiers together with `page` and `limit`, no key
occurs twice, every key carries exactly one value, and the keys of the pairs the
query string is written from are these keys, each once. -/
theorem GetActiveHosts_query_keys {Float64 : Type} (FormatFloat : Float64 → String)
    (page limit : Int) (ms : List (sia.Modifier Float64)) :
    (∀ k, k ∈ (sia.GetActiveHosts.values page limit
          (ms.map (sia.Modifier.filter FormatFloat))).keys ↔
        (∃ m ∈ ms, k ∈ m.keys FormatFloat) ∨ k = "page" ∨ k = "limit") ∧
      (sia.GetActiveHosts.values page limit
        (ms.map (sia.Modifier.filter FormatFloat))).keys.Nodup ∧
      (∀ k vs, (sia.GetActiveHosts.values page limit
          (ms.map (sia.Modifier.filter FormatFloat))).Get? k = some vs → vs.length = 1) ∧
      (∀ k, (sia.GetActiveHosts.values page limit
          (ms.map (sia.Modifier.filter FormatFloat))).Get? k ≠ none ↔
        k ∈ (sia.GetActiveHosts.values page limit
          (ms.map (sia.Modifier.filter FormatFloat))).keys) ∧
      List.Perm
        ((sia.GetActiveHosts.values page limit
          (ms.map (sia.Modifier.filter FormatFloat))).pairs.map Prod.fst)
        (sia.GetActiveHosts.values page limit
          (ms.map (sia.Modifier.filter FormatFloat))).keys := by
  refine ⟨sia.values_mem_keys FormatFloat page limit ms,
    sia.values_nodup_keys FormatFloat page limit ms,
    sia.values_single FormatFloat page limit ms, ?_, ?_⟩
  · intro k
    rw [Ne, Values.Get?_eq_none_iff, not_not]
  · exact Values.pairs_keys_perm _ (sia.values_nodup_keys FormatFloat page limit ms)
      (sia.values_single FormatFloat page limit ms)

/-- C5, at a concrete input: `HostFilterOnline(true)`, `HostFilterSort("age", true)`
and `HostFilterOnline(false)` with page 2 and limit 50; the key `online` is set
twice and still carries the single value `false`. -/
theorem GetActiveHosts_query_keys_witness :
    (sia.GetActiveHosts.values 2 50
        ([sia.Modifier.Online true, sia.Modifier.SortBy "age" true,
          sia.Modifier.Online false].map (sia.Modifier.filter Nat.repr))).Get? "online" =
        some ["false"] ∧
      ["false"].length = 1 ∧
      (sia.GetActiveHosts.values 2 50
        ([sia.Modifier.Online true, sia.Modifier.SortBy "age" true,
          sia.Modifier.Online false].map (sia.Modifier.filter Nat.repr))).keys =
        ["online", "sort", "dir", "page", "limit"] :=
  ⟨by decide,
    (GetActiveHosts_query_keys Nat.repr 2 50
      [sia.Modifier.Online true, sia.Modifier.SortBy "age" true,
        sia.Modifier.Online false]).2.2.1 "online" ["false"] (by decide),
    by decide⟩

/-! ## What one modifier does to the collection -/

theorem setsOnly_Set (key value : String) : SetsOnly (fun v => v.Set key value) key value := by
  intro v
  refine ⟨?_, fun k hk => ?_⟩
  · rw [Values.Get?_Set, if_pos rfl]
  · rw [Values.Get?_Set, if_neg hk]

/-- C6, as stated, fails for `HostFilterSort`: there is no single key such that
`HostFilterSort("age", true)` sets that key and leaves every other key
unchanged, since on the empty collection it creates both `sort` and `dir`. -/
theorem HostFilterSort_sets_two_keys :
    ¬ ∃ key value, SetsOnly (sia.HostFilterSort "age" true) key value := by
  rintro ⟨key, value, h⟩
  obtain ⟨_, hrest⟩ := h []
  by_cases hk : key = "sort"
  · have hdir := hrest "dir" (by rw [hk]; decide)
    revert hdir
    decide
  · have hsort := hrest "sort" (fun e => hk e.symm)
    revert hsort
    decide

/-- C6, amended: every modifier other than `HostFilterSort` sets one key, its
fixed lowercase token, to the rendering of its argument and leaves every other
key unchanged; `HostFilterSort` sets the two keys `sort` (to the field) and `dir`
(to `desc` or `asc`) and leaves every other key unchanged. -/
theorem host_filters_set_their_keys {Float64 : Type} (FormatFloat : Float64 → String)
    (b : Bool) (n : Nat) (x : Float64) (price : Currency) (field : sia.HostSort) (desc : Bool) :
    SetsOnly (sia.HostFilterAcceptingContracts b) "acceptcontracts" (FormatBool b) ∧
      SetsOnly (sia.HostFilterOnline b) "online" (FormatBool b) ∧
      SetsOnly (sia.HostFilterBenchmarked b) "benchmarked" (FormatBool b) ∧
      SetsOnly (sia.HostFilterMinAge n) "minage" (FormatUint n) ∧
      SetsOnly (sia.HostFilterMinUptime FormatFloat x) "minuptime" (FormatFloat x) ∧
      SetsOnly (sia.HostFilterMinDuration n) "minduration" (FormatUint n) ∧
      SetsOnly (sia.HostFilterMinStorage n) "minstorage" (FormatUint n) ∧
      SetsOnly (sia.HostFilterMinUploadSpeed n) "minuploadspeed" (FormatUint n) ∧
      SetsOnly (sia.HostFilterMinDownloadSpeed n) "mindownloadspeed" (FormatUint n) ∧
      SetsOnly (sia.HostFilterMaxStoragePrice price) "maxstorageprice" price.String ∧
      SetsOnly (sia.HostFilterMaxUploadPrice price) "maxuploadprice" price.String ∧
      SetsOnly (sia.HostFilterMaxDownloadPrice price) "maxdownloadprice" price.String ∧
      SetsOnly (sia.HostFilterMaxContractPrice price) "maxcontractprice" price.String ∧
      SetsOnly (sia.HostFilterMaxBaseRPCPrice price) "maxbaserpcprice" price.String ∧
      SetsOnly (sia.HostFilterSectorAccessPrice price) "maxsectoraccessprice" price.String ∧
      (∀ v : Values,
        (sia.HostFilterSort field desc v).Get? "sort" = some [field] ∧
          (sia.HostFilterSort field desc v).Get? "dir" = some [if desc then "desc" else "asc"] ∧
          ∀ k, k ≠ "sort" → k ≠ "dir" → (sia.HostFilterSort field desc v).Get? k = v.Get? k) := by
  refine ⟨setsOnly_Set _ _, setsOnly_Set _ _, setsOnly_Set _ _, setsOnly_Set _ _,
    setsOnly_Set _ _, setsOnly_Set _ _, setsOnly_Set _ _, setsOnly_Set _ _, setsOnly_Set _ _,
    setsOnly_Set _ _, setsOnly_Set _ _, setsOnly_Set _ _, setsOnly_Set _ _, setsOnly_Set _ _,
    setsOnly_Set _ _, fun v => ?_⟩
  have hne : ¬ ("sort" = "dir") := by decide
  cases desc <;>
    simp only [sia.HostFilterSort, sia.sortParam, sia.dirParam, if_true, Bool.false_eq_true,
      if_false] <;>
    refine ⟨?_, ?_, fun k h1 h2 => ?_⟩
  all_goals rw [Values.Get?_Set, Values.Get?_Set]
  all_goals first
    | rw [if_neg hne, if_pos rfl]
    | rw [if_pos rfl]
    | rw [if_neg h2, if_neg h1]

/-- C6 amended, at a concrete input: `HostFilterOnline(true)` on a collection
that holds `minage=3` sets `online` to `true` and leaves `minage` as it was;
`HostFilterSort("age", true)` leaves it as well. -/
theorem host_filters_set_their_keys_witness :
    "minage" ≠ "online" ∧
      (sia.HostFilterOnline true [("minage", ["3"])]).Get? "online" = some ["true"] ∧
      (sia.HostFilterOnline true [("minage", ["3"])]).Get? "minage" = some ["3"] ∧
      ("minage" ≠ "sort" ∧ "minage" ≠ "dir") ∧
      (sia.HostFilterSort "age" true [("minage", ["3"])]).Get? "minage" = some ["3"] :=
  ⟨by decide,
    ((host_filters_set_their_keys Nat.repr true 3 0 ⟨1⟩ "age" true).2.1 [("minage", ["3"])]).1,
    ((host_filters_set_their_keys Nat.repr true 3 0 ⟨1⟩ "age" true).2.1 [("minage", ["3"])]).2
      "minage" (by decide),
    ⟨by decide, by decide⟩,
    ((host_filters_set_their_keys Nat.repr true 3 0 ⟨1⟩ "age" true).2.2.2.2.2.2.2.2.2.2.2.2.2.2.2
      [("minage", ["3"])]).2.2 "minage" (by decide) (by decide)⟩

/-! ## The order of the modifiers -/

namespace sia

section order
variable {Float64 : Type} (FormatFloat : Float64 → String)

theorem Modifier.exists_set_of_mem_keys (m : Modifier Float64) (k : String)
    (h : k ∈ m.keys FormatFloat) : ∃ x, (k, x) ∈ m.sets FormatFloat := by
  simp only [Modifier.keys, List.mem_map] at h
  obtain ⟨p, hp, rfl⟩ := h
  exact ⟨p.2, hp⟩

theorem Modifier.mem_keys_of_set (m : Modifier Float64) (k x : String)
    (h : (k, x) ∈ m.sets FormatFloat) : k ∈ m.keys FormatFloat :=
  List.mem_map.mpr ⟨(k, x), h, rfl⟩

theorem filters_Get?_of_agree (ms : List (Modifier Float64)) (v : Values) (k x : String)
    (m : Modifier Float64) (hm : m ∈ ms) (hkx : (k, x) ∈ m.sets FormatFloat)
    (hagree : ∀ m' ∈ ms, k ∈ m'.keys FormatFloat → m'.sets FormatFloat = m.sets FormatFloat) :
    ((ms.map (Modifier.filter FormatFloat)).foldl (fun values f => f values) v).Get? k =
      some [x] := by
  induction ms generalizing v m with
  | nil => cases hm
  | cons m0 rest ih =>
    simp only [List.map_cons, List.foldl_cons]
    by_cases hex : ∃ m' ∈ rest, k ∈ m'.keys FormatFloat
    · obtain ⟨m', hm', hk'⟩ := hex
      have hsets : m'.sets FormatFloat = m.sets FormatFloat :=
        hagree m' (List.mem_cons_of_mem _ hm') hk'
      apply ih _ m' hm' (hsets ▸ hkx)
      intro m'' hm'' hk''
      rw [hsets]
      exact hagree m'' (List.mem_cons_of_mem _ hm'') hk''
    · have hnot : ∀ m' ∈ rest, k ∉ m'.keys FormatFloat := fun m' hm' hk' => hex ⟨m', hm', hk'⟩
      rw [filters_Get?_of_not_mem FormatFloat rest _ k hnot]
      rcases List.mem_cons.mp hm with h | h
      · subst h
        exact Modifier.filter_Get?_of_mem FormatFloat m v k x hkx
      · exact absurd (Modifier.mem_keys_of_set FormatFloat m k x hkx) (hnot m h)

theorem filters_Get?_perm (ms ms' : List (Modifier Float64)) (hperm : List.Perm ms ms')
    (hagree : ∀ m ∈ ms, ∀ m' ∈ ms,
      (∃ k, k ∈ m.keys FormatFloat ∧ k ∈ m'.keys FormatFloat) →
        m.sets FormatFloat = m'.sets FormatFloat)
    (k : String) :
    Values.Get? ((ms.map (Modifier.filter FormatFloat)).foldl (fun values f => f values) []) k =
      Values.Get?
        ((ms'.map (Modifier.filter FormatFloat)).foldl (fun values f => f values) []) k := by
  by_cases hex : ∃ m ∈ ms, k ∈ m.keys FormatFloat
  · obtain ⟨m, hm, hk⟩ := hex
    obtain ⟨x, hx⟩ := Modifier.exists_set_of_mem_keys FormatFloat m k hk
    rw [filters_Get?_of_agree FormatFloat ms [] k x m hm hx
        (fun m' hm' hk' => hagree m' hm' m hm ⟨k, hk', hk⟩),
      filters_Get?_of_agree FormatFloat ms' [] k x m (hperm.mem_iff.mp hm) hx
        (fun m' hm' hk' => hagree m' (hperm.mem_iff.mpr hm') m hm ⟨k, hk', hk⟩)]
  · have hnot : ∀ m ∈ ms, k ∉ m.keys FormatFloat := fun m hm hk => hex ⟨m, hm, hk⟩
    rw [filters_Get?_of_not_mem FormatFloat ms [] k hnot,
      filters_Get?_of_not_mem FormatFloat ms' [] k
        (fun m hm => hnot m (hperm.mem_iff.mpr hm))]

end order

end sia

/-- C7, as stated, fails: `HostFilterOnline(true), HostFilterOnline(false)` and its
permutation `HostFilterOnline(false), HostFilterOnline(true)` give collections
that differ at the key `online`, which carries the value of the modifier applied
last. -/
theorem filter_order_changes_collection :
    List.Perm [sia.Modifier.Online true, (sia.Modifier.Online false : sia.Modifier Nat)]
        [sia.Modifier.Online false, sia.Modifier.Online true] ∧
      (sia.GetActiveHosts.values 0 10
          ([sia.Modifier.Online true, (sia.Modifier.Online false : sia.Modifier Nat)].map
            (sia.Modifier.filter Nat.repr))).Get? "online" = some ["false"] ∧
      (sia.GetActiveHosts.values 0 10
          ([sia.Modifier.Online false, (sia.Modifier.Online true : sia.Modifier Nat)].map
            (sia.Modifier.filter Nat.repr))).Get? "online" = some ["true"] ∧
      (sia.GetActiveHosts.values 0 10
          ([sia.Modifier.Online true, (sia.Modifier.Online false : sia.Modifier Nat)].map
            (sia.Modifier.filter Nat.repr))).Get? "online" ≠
        (sia.GetActiveHosts.values 0 10
          ([sia.Modifier.Online false, (sia.Modifier.Online true : sia.Modifier Nat)].map
            (sia.Modifier.filter Nat.repr))).Get? "online" :=
  ⟨List.Perm.swap _ _ _, by decide, by decide, by decide⟩

theorem filters_Get?_last {Float64 : Type} (FormatFloat : Float64 → String)
    (pre post : List (sia.Modifier Float64)) (m : sia.Modifier Float64) (v : Values)
    (k x : String) (hkx : (k, x) ∈ m.sets FormatFloat)
    (hpost : ∀ m' ∈ post, k ∉ m'.keys FormatFloat) :
    (((pre ++ m :: post).map (sia.Modifier.filter FormatFloat)).foldl
      (fun values f => f values) v).Get? k = some [x] := by
  rw [List.map_append, List.foldl_append, List.map_cons, List.foldl_cons,
    sia.filters_Get?_of_not_mem FormatFloat post _ k hpost,
    sia.Modifier.filter_Get?_of_mem FormatFloat m _ k x hkx]

/-- C7, amended: host filter composition is order-independent for a list in which
any two modifiers that set a common key set the same keys to the same values:
for every such list and every permutation of it, `GetActiveHosts` (same page and
limit) builds the same collection, every key carrying the same values. The
modifiers are applied in the order given: a key set by several modifiers of the
list carries the value of the one applied last, that is, of a modifier after
which no modifier of the list sets that key. -/
theorem filter_order_independent_when_agreeing {Float64 : Type}
    (FormatFloat : Float64 → String) (page limit : Int) (ms ms' : List (sia.Modifier Float64)) :
    (List.Perm ms ms' →
      (∀ m ∈ ms, ∀ m' ∈ ms,
        (∃ k, k ∈ m.keys FormatFloat ∧ k ∈ m'.keys FormatFloat) →
          m.sets FormatFloat = m'.sets FormatFloat) →
      ∀ k,
        (sia.GetActiveHosts.values page limit (ms.map (sia.Modifier.filter FormatFloat))).Get? k =
          (sia.GetActiveHosts.values page limit
            (ms'.map (sia.Modifier.filter FormatFloat))).Get? k) ∧
      (∀ pre m post k x, ms = pre ++ m :: post → (k, x) ∈ m.sets FormatFloat →
        (∀ m' ∈ post, k ∉ m'.keys FormatFloat) →
        (sia.GetActiveHosts.values page limit (ms.map (sia.Modifier.filter FormatFloat))).Get? k =
          some [x]) := by
  refine ⟨fun hperm hagree k => ?_, fun pre m post k x hms hkx hpost => ?_⟩
  · rw [sia.values_Get?, sia.values_Get?, sia.filters_Get?_perm FormatFloat ms ms' hperm hagree k]
  · have hk : k ∈ m.keys FormatFloat := sia.Modifier.mem_keys_of_set FormatFloat m k x hkx
    have hnot := sia.Modifier.page_limit_not_mem_keys FormatFloat m
    have h1 : k ≠ "limit" := fun e => hnot.2 (e ▸ hk)
    have h2 : k ≠ "page" := fun e => hnot.1 (e ▸ hk)
    rw [sia.values_Get?, if_neg h1, if_neg h2, hms]
    exact filters_Get?_last FormatFloat pre post m [] k x hkx hpost

/-- C7 amended, at concrete inputs: `HostFilterOnline(true)`, `HostFilterMinAge(3)`,
`HostFilterOnline(true)` and the permutation that swaps the first two give the
same value under `online`; in `HostFilterOnline(true)`, `HostFilterOnline(false)`
the second modifier is the last to set `online`, which carries `false`. -/
theorem filter_order_independent_when_agreeing_witness :
    (List.Perm [sia.Modifier.Online true, sia.Modifier.MinAge 3, sia.Modifier.Online true]
        [sia.Modifier.MinAge 3, sia.Modifier.Online true,
          (sia.Modifier.Online true : sia.Modifier Nat)] ∧
      (sia.GetActiveHosts.values 2 50
          ([sia.Modifier.Online true, sia.Modifier.MinAge 3,
            (sia.Modifier.Online true : sia.Modifier Nat)].map
              (sia.Modifier.filter Nat.repr))).Get? "online" =
        (sia.GetActiveHosts.values 2 50
          ([sia.Modifier.MinAge 3, sia.Modifier.Online true,
            (sia.Modifier.Online true : sia.Modifier Nat)].map
              (sia.Modifier.filter Nat.repr))).Get? "online") ∧
      (("online", "false") ∈ (sia.Modifier.Online false : sia.Modifier Nat).sets Nat.repr ∧
        (sia.GetActiveHosts.values 2 50
          ([sia.Modifier.Online true, (sia.Modifier.Online false : sia.Modifier Nat)].map
            (sia.Modifier.filter Nat.repr))).Get? "online" = some ["false"]) :=
  ⟨⟨List.Perm.swap _ _ _,
    (filter_order_independent_when_agreeing Nat.repr 2 50 _ _).1 (List.Perm.swap _ _ _)
      (by
        intro m hm m' hm' hk
        obtain ⟨k, h1, h2⟩ := hk
        simp only [List.mem_cons, List.mem_singleton, List.not_mem_nil, or_false] at hm hm'
        rcases hm with rfl | rfl | rfl <;> rcases hm' with rfl | rfl | rfl <;>
          first
            | rfl
            | (exfalso
               simp only [sia.Modifier.keys, sia.Modifier.sets, List.map_cons, List.map_nil,
                 List.mem_singleton] at h1 h2
               rw [h1] at h2
               revert h2
               decide))
      "online"⟩,
    ⟨by decide,
      (filter_order_independent_when_agreeing Nat.repr 2 50
        [sia.Modifier.Online true, sia.Modifier.Online false] []).2
        [sia.Modifier.Online true] (sia.Modifier.Online false) [] "online" "false" rfl
        (by decide) (fun m' hm' => by cases hm')⟩⟩

/-! ## Success or failure as a whole -/

theorem statusTypeErr_ne_none (err : Option GoError) (code : Int) (type message : String)
    (h : err ≠ none ∨ code < 200 ∨ code ≥ 300 ∨ type ≠ "success") :
    statusTypeErr err code type message ≠ none := by
  unfold statusTypeErr
  cases err with
  | some e => simp
  | none =>
    have h2 : code < 200 ∨ code ≥ 300 ∨ type ≠ "success" := by
      rcases h with h | h
      · exact absurd rfl h
      · exact h
    simp only [h2, if_true]
    simp

theorem statusErr_ne_none (err : Option GoError) (code : Int) (message : String)
    (h : err ≠ none ∨ code < 200 ∨ code ≥ 300) : statusErr err code message ≠ none := by
  unfold statusErr
  cases err with
  | some e => simp
  | none =>
    have h2 : code < 200 ∨ code ≥ 300 := by
      rcases h with h | h
      · exact absurd rfl h
      · exact h
    simp only [h2, if_true]
    simp

theorem errorOnFailure_intro {β ρ α : Type} [Inhabited ρ] (t : Transport β ρ)
    (type message : ρ → String) (out : Outcome β α)
    (h : ∃ req, out.calls = [req] ∧
      out.err = statusTypeErr (t req default).err (t req default).code
        (type (t req default).resp) (message (t req default).resp)) :
    ErrorOnFailure t type out := by
  obtain ⟨req, hc, he⟩ := h
  refine ⟨req, hc, fun hf => ?_⟩
  rw [he]
  exact statusTypeErr_ne_none _ _ _ _ hf

/-- C8, as stated, fails for `FindAddressBalance` and `GetAddressBalance`: on a
reply with status 500 and an envelope of type "error" they return an error
together with the response structure the transport helper decoded, which is not
the zero value. -/
theorem balance_payload_not_zero_on_error :
    (sia.FindAddressBalance (sia.sampleBalance 500 none "error" "denied") 10 0 ["addr"]).err =
        some (GoError.errorsNew "denied") ∧
      (sia.FindAddressBalance (sia.sampleBalance 500 none "error" "denied") 10 0 ["addr"]).value ≠
        default ∧
      (sia.GetAddressBalance (sia.sampleBalance 500 none "error" "denied") 10 0 "one").err =
        some (GoError.errorsNew "denied") ∧
      (sia.GetAddressBalance (sia.sampleBalance 500 none "error" "denied") 10 0 "one").value ≠
        default := by
  refine ⟨by decide, fun h => ?_, by decide, fun h => ?_⟩
  · have h2 := congrArg (fun r => r.Type_) h
    revert h2
    decide
  · have h2 := congrArg (fun r => r.Type_) h
    revert h2
    decide

section wholes
variable {HostConfig AvgHostBenchmark HostDetails AddressUsage SiacoinOutput SiafundOutput
  Transaction TypesTransaction OldAddressUsage OldSiacoinOutput WalletTransaction
  ConnectionReport β : Type}

theorem sia_FindUsedAddresses_zero
    (t : Transport (sia.Body TypesTransaction) (sia.getAddressesResp AddressUsage))
    (addresses : List String) : ZeroOnError (sia.FindUsedAddresses t addresses) := by
  by_cases h : addresses.length ≤ 10000
  · obtain ⟨_, _, _, hz⟩ := sia_FindUsedAddresses_shape t addresses h
    exact hz
  · intro _
    rw [sia_FindUsedAddresses_over t addresses (by omega)]
    rfl

theorem apiclient_FindUsedAddresses_zero
    (t : Transport apiclient.Body (apiclient.getAddressesResp AddressUsage))
    (addresses : List String) : ZeroOnError (apiclient.FindUsedAddresses t addresses) := by
  by_cases h : addresses.length ≤ 10000
  · obtain ⟨_, _, _, hz⟩ := apiclient_FindUsedAddresses_shape t addresses h
    exact hz
  · intro _
    rw [apiclient_FindUsedAddresses_over t addresses (by omega)]
    rfl

/-- C8, amended: every endpoint call that fails returns a non-nil error (a
transport error, a status outside [200, 300), an envelope type other than
"success" on the endpoints that check it, or the local validation of the address
list). Whenever a call returns a non-nil error its payload is the zero value of
its type, except for `FindAddressBalance` and `GetAddressBalance` of both
generations: what they return is the response structure handed to the transport
helper, so after a dispatched request it is the structure as the helper left it,
with or without an error, and it is the zero value when the local validation
fails. -/
theorem endpoints_fail_as_a_whole [Inhabited HostConfig] [Inhabited AvgHostBenchmark]
    [Inhabited HostDetails] [Inhabited ConnectionReport] (PathEscape QueryEscape : String → String)
    (tAverages : Transport (sia.Body TypesTransaction)
      (sia.getAveragesResp HostConfig AvgHostBenchmark))
    (tHosts : Transport (sia.Body TypesTransaction) (sia.getHostsResp HostDetails))
    (tHost : Transport (sia.Body TypesTransaction) (sia.getHostDetailResp HostDetails))
    (tFees : Transport (sia.Body TypesTransaction) sia.getFeesResp)
    (tBalance : Transport (sia.Body TypesTransaction)
      (sia.GetTransactionsResp SiacoinOutput SiafundOutput Transaction))
    (tUsed : Transport (sia.Body TypesTransaction) (sia.getAddressesResp AddressUsage))
    (tBroadcast : Transport (sia.Body TypesTransaction) sia.APIResponse)
    (oFees : Transport apiclient.Body apiclient.getFeesResp)
    (oBalance : Transport apiclient.Body
      (apiclient.GetTransactionsResp OldSiacoinOutput WalletTransaction))
    (oUsed : Transport apiclient.Body (apiclient.getAddressesResp OldAddressUsage))
    (tConnection : Transport β (scprime.getConnectionResp ConnectionReport))
    (page limit : Int) (filters : List sia.HostFilter) (id address netaddress : String)
    (addresses : List String) (transactions : List TypesTransaction) :
    (ZeroOnError (sia.GetNetworkAverages tAverages) ∧
        ZeroOnError (sia.GetActiveHosts QueryEscape tHosts page limit filters) ∧
        ZeroOnError (sia.GetHost PathEscape tHost id) ∧
        ZeroOnError (sia.GetTransactionFees tFees) ∧
        ZeroOnError (sia.GetAPIFees tFees) ∧
        ZeroOnError (sia.FindUsedAddresses tUsed addresses) ∧
        ZeroOnError (sia.BroadcastTransactionSet tBroadcast transactions) ∧
        ZeroOnError (apiclient.GetTransactionFees oFees) ∧
        ZeroOnError (apiclient.FindUsedAddresses oUsed addresses) ∧
        ZeroOnError (scprime.GetHostConnectivity PathEscape tConnection netaddress)) ∧
      (ReturnsResponse tBalance (sia.GetAddressBalance tBalance limit page address) ∧
        ReturnsResponse oBalance (apiclient.GetAddressBalance oBalance limit page address) ∧
        (addresses.length ≤ 10000 →
          ReturnsResponse tBalance (sia.FindAddressBalance tBalance limit page addresses) ∧
            ReturnsResponse oBalance
              (apiclient.FindAddressBalance oBalance limit page addresses)) ∧
        (addresses.length > 10000 →
          (sia.FindAddressBalance tBalance limit page addresses).value = default ∧
            (apiclient.FindAddressBalance oBalance limit page addresses).value = default)) ∧
      (ErrorOnFailure tAverages (fun r => r.Type_) (sia.GetNetworkAverages tAverages) ∧
        ErrorOnFailure tHosts (fun r => r.Type_)
          (sia.GetActiveHosts QueryEscape tHosts page limit filters) ∧
        ErrorOnFailure tHost (fun r => r.Type_) (sia.GetHost PathEscape tHost id) ∧
        ErrorOnFailure tFees (fun r => r.Type_) (sia.GetTransactionFees tFees) ∧
        ErrorOnFailure tFees (fun r => r.Type_) (sia.GetAPIFees tFees) ∧
        ErrorOnFailure tBalance (fun r => r.Type_)
          (sia.GetAddressBalance tBalance limit page address) ∧
        ErrorOnFailure tBroadcast (fun r => r.Type_)
          (sia.BroadcastTransactionSet tBroadcast transactions) ∧
        ErrorOnFailure oFees (fun r => r.Type_) (apiclient.GetTransactionFees oFees) ∧
        ErrorOnFailure oBalance (fun r => r.Type_)
          (apiclient.GetAddressBalance oBalance limit page address) ∧
        ErrorOnBadStatus tConnection
          (scprime.GetHostConnectivity PathEscape tConnection netaddress)) ∧
      (addresses.length ≤ 10000 →
        ErrorOnFailure tBalance (fun r => r.Type_)
            (sia.FindAddressBalance tBalance limit page addresses) ∧
          ErrorOnFailure tUsed (fun r => r.Type_) (sia.FindUsedAddresses tUsed addresses) ∧
          ErrorOnFailure oBalance (fun r => r.Type_)
            (apiclient.FindAddressBalance oBalance limit page addresses) ∧
          ErrorOnFailure oUsed (fun r => r.Type_) (apiclient.FindUsedAddresses oUsed addresses)) ∧
      (addresses.length > 10000 →
        (sia.FindAddressBalance tBalance limit page addresses).err ≠ none ∧
          (sia.FindUsedAddresses tUsed addresses).err ≠ none ∧
          (apiclient.FindAddressBalance oBalance limit page addresses).err ≠ none ∧
          (apiclient.FindUsedAddresses oUsed addresses).err ≠ none) := by
  refine ⟨⟨?_, ?_, ?_, ?_, ?_, ?_, ?_, ?_, ?_, ?_⟩, ⟨?_, ?_, ?_, ?_⟩,
    ⟨?_, ?_, ?_, ?_, ?_, ?_, ?_, ?_, ?_, ?_⟩, ?_, ?_⟩
  · obtain ⟨_, _, _, hz⟩ := sia_GetNetworkAverages_shape tAverages
    exact hz
  · obtain ⟨_, _, _, hz⟩ := sia_GetActiveHosts_shape QueryEscape tHosts page limit filters
    exact hz
  · obtain ⟨_, _, _, hz⟩ := sia_GetHost_shape PathEscape tHost id
    exact hz
  · obtain ⟨_, _, _, hz⟩ := sia_GetTransactionFees_shape tFees
    exact hz
  · obtain ⟨_, _, _, hz⟩ := sia_GetAPIFees_shape tFees
    exact hz
  · exact sia_FindUsedAddresses_zero tUsed addresses
  · exact fun _ => rfl
  · obtain ⟨_, _, _, hz⟩ := apiclient_GetTransactionFees_shape oFees
    exact hz
  · exact apiclient_FindUsedAddresses_zero oUsed addresses
  · obtain ⟨_, _, _, hz, _⟩ := scprime_GetHostConnectivity_shape PathEscape tConnection netaddress
    exact hz
  · obtain ⟨req, hc, _, hv⟩ := sia_GetAddressBalance_shape tBalance limit page address
    exact ⟨req, hc, hv⟩
  · obtain ⟨req, hc, _, hv⟩ := apiclient_GetAddressBalance_shape oBalance limit page address
    exact ⟨req, hc, hv⟩
  · intro h
    obtain ⟨req, hc, _, hv⟩ := sia_FindAddressBalance_shape tBalance limit page addresses h
    obtain ⟨req2, hc2, _, hv2⟩ :=
      apiclient_FindAddressBalance_shape oBalance limit page addresses h
    exact ⟨⟨req, hc, hv⟩, ⟨req2, hc2, hv2⟩⟩
  · intro h
    rw [sia_FindAddressBalance_over tBalance limit page addresses h,
      apiclient_FindAddressBalance_over oBalance limit page addresses h]
    exact ⟨rfl, rfl⟩
  · obtain ⟨req, h1, h2, _⟩ := sia_GetNetworkAverages_shape tAverages
    exact errorOnFailure_intro _ _ (fun r => r.Message) _ ⟨req, h1, h2⟩
  · obtain ⟨req, h1, h2, _⟩ := sia_GetActiveHosts_shape QueryEscape tHosts page limit filters
    exact errorOnFailure_intro _ _ (fun r => r.Message) _ ⟨req, h1, h2⟩
  · obtain ⟨req, h1, h2, _⟩ := sia_GetHost_shape PathEscape tHost id
    exact errorOnFailure_intro _ _ (fun r => r.Message) _ ⟨req, h1, h2⟩
  · obtain ⟨req, h1, h2, _⟩ := sia_GetTransactionFees_shape tFees
    exact errorOnFailure_intro _ _ (fun r => r.Message) _ ⟨req, h1, h2⟩
  · obtain ⟨req, h1, h2, _⟩ := sia_GetAPIFees_shape tFees
    exact errorOnFailure_intro _ _ (fun r => r.Message) _ ⟨req, h1, h2⟩
  · obtain ⟨req, h1, h2, _⟩ := sia_GetAddressBalance_shape tBalance limit page address
    exact errorOnFailure_intro _ _ (fun r => r.Message) _ ⟨req, h1, h2⟩
  · obtain ⟨req, h1, h2⟩ := sia_BroadcastTransactionSet_shape tBroadcast transactions
    exact errorOnFailure_intro _ _ (fun r => r.Message) _ ⟨req, h1, h2⟩
  · obtain ⟨req, h1, h2, _⟩ := apiclient_GetTransactionFees_shape oFees
    exact errorOnFailure_intro _ _ (fun r => r.Message) _ ⟨req, h1, h2⟩
  · obtain ⟨req, h1, h2, _⟩ := apiclient_GetAddressBalance_shape oBalance limit page address
    exact errorOnFailure_intro _ _ (fun r => r.Message) _ ⟨req, h1, h2⟩
  · obtain ⟨req, h1, h2, _⟩ :=
      scprime_GetHostConnectivity_shape PathEscape tConnection netaddress
    refine ⟨req, h1, fun hf => ?_⟩
    rw [h2]
    exact statusErr_ne_none _ _ _ hf
  · intro h
    refine ⟨?_, ?_, ?_, ?_⟩
    · obtain ⟨req, h1, h2, _⟩ := sia_FindAddressBalance_shape tBalance limit page addresses h
      exact errorOnFailure_intro _ _ (fun r => r.Message) _ ⟨req, h1, h2⟩
    · obtain ⟨req, h1, h2, _⟩ := sia_FindUsedAddresses_shape tUsed addresses h
      exact errorOnFailure_intro _ _ (fun r => r.Message) _ ⟨req, h1, h2⟩
    · obtain ⟨req, h1, h2, _⟩ :=
        apiclient_FindAddressBalance_shape oBalance limit page addresses h
      exact errorOnFailure_intro _ _ (fun r => r.Message) _ ⟨req, h1, h2⟩
    · obtain ⟨req, h1, h2, _⟩ := apiclient_FindUsedAddresses_shape oUsed addresses h
      exact errorOnFailure_intro _ _ (fun r => r.Message) _ ⟨req, h1, h2⟩
  · intro h
    rw [sia_FindAddressBalance_over tBalance limit page addresses h,
      sia_FindUsedAddresses_over tUsed addresses h,
      apiclient_FindAddressBalance_over oBalance limit page addresses h,
      apiclient_FindUsedAddresses_over oUsed addresses h]
    exact ⟨by simp, by simp, by simp, by simp⟩

end wholes

/-- C8 amended, at a concrete input: every transport helper answers with status
500 and an envelope of type "error"; `GetHost` returns an error and the zero
payload, `FindAddressBalance` on a list of one address returns the decoded
response of the reply. -/
theorem endpoints_fail_as_a_whole_witness :
    (sia.GetHost id (sia.sampleHost 500 none "error" "denied") "host").err ≠ none ∧
      (sia.GetHost id (sia.sampleHost 500 none "error" "denied") "host").value = default ∧
      ["addr"].length ≤ 10000 ∧
      ReturnsResponse (sia.sampleBalance 500 none "error" "denied")
        (sia.FindAddressBalance (sia.sampleBalance 500 none "error" "denied") 10 0 ["addr"]) ∧
      ErrorOnFailure (sia.sampleBalance 500 none "error" "denied") (fun r => r.Type_)
        (sia.FindAddressBalance (sia.sampleBalance 500 none "error" "denied") 10 0 ["addr"]) :=
  ⟨by decide,
    (endpoints_fail_as_a_whole id id (sia.sampleAverages 500 none "error" "denied")
      (sia.sampleHosts 500 none "error" "denied") (sia.sampleHost 500 none "error" "denied")
      (sia.sampleFees 500 none "error" "denied") (sia.sampleBalance 500 none "error" "denied")
      (sia.sampleUsed 500 none "error" "denied") (sia.sampleBroadcast 500 none "error" "denied")
      (apiclient.sampleFees 500 none "error" "denied")
      (apiclient.sampleBalance 500 none "error" "denied")
      (apiclient.sampleUsed 500 none "error" "denied")
      (scprime.sampleConnection 500 none "error" "denied")
      0 10 [] "host" "one" "host:9982" ["addr"] [()]).1.2.2.1 (by decide),
    by decide,
    ((endpoints_fail_as_a_whole id id (sia.sampleAverages 500 none "error" "denied")
      (sia.sampleHosts 500 none "error" "denied") (sia.sampleHost 500 none "error" "denied")
      (sia.sampleFees 500 none "error" "denied") (sia.sampleBalance 500 none "error" "denied")
      (sia.sampleUsed 500 none "error" "denied") (sia.sampleBroadcast 500 none "error" "denied")
      (apiclient.sampleFees 500 none "error" "denied")
      (apiclient.sampleBalance 500 none "error" "denied")
      (apiclient.sampleUsed 500 none "error" "denied")
      (scprime.sampleConnection 500 none "error" "denied")
      0 10 [] "host" "one" "host:9982" ["addr"] [()]).2.1.2.2.1 (by decide)).1,
    ((endpoints_fail_as_a_whole id id (sia.sampleAverages 500 none "error" "denied")
      (sia.sampleHosts 500 none "error" "denied") (sia.sampleHost 500 none "error" "denied")
      (sia.sampleFees 500 none "error" "denied") (sia.sampleBalance 500 none "error" "denied")
      (sia.sampleUsed 500 none "error" "denied") (sia.sampleBroadcast 500 none "error" "denied")
      (apiclient.sampleFees 500 none "error" "denied")
      (apiclient.sampleBalance 500 none "error" "denied")
      (apiclient.sampleUsed 500 none "error" "denied")
      (scprime.sampleConnection 500 none "error" "denied")
      0 10 [] "host" "one" "host:9982" ["addr"] [()]).2.2.2.1 (by decide)).1⟩

/-! ## Transport errors -/

theorem propagates_of_statusTypeErr {β ρ α : Type} [Inhabited ρ] (t : Transport β ρ)
    (type message : ρ → String) (out : Outcome β α)
    (h : ∃ req, out.calls = [req] ∧
      out.err = statusTypeErr (t req default).err (t req default).code
        (type (t req default).resp) (message (t req default).resp)) :
    PropagatesTransportError t out := by
  obtain ⟨req, hc, he⟩ := h
  refine ⟨req, hc, fun e hte => ?_⟩
  rw [he, hte]
  rfl

section transportErrors
variable {HostConfig AvgHostBenchmark HostDetails AddressUsage SiacoinOutput SiafundOutput
  Transaction TypesTransaction OldAddressUsage OldSiacoinOutput WalletTransaction
  ConnectionReport β : Type}

/-- C9: every endpoint function dispatches one request (the address lists being
within the ceiling) and, when the transport helper returns a non-nil error for
it, returns exactly that error, whatever status code and envelope come with it. -/
theorem transport_error_returned_unchanged [Inhabited HostConfig] [Inhabited AvgHostBenchmark]
    [Inhabited HostDetails] [Inhabited ConnectionReport] (PathEscape QueryEscape : String → String)
    (tAverages : Transport (sia.Body TypesTransaction)
      (sia.getAveragesResp HostConfig AvgHostBenchmark))
    (tHosts : Transport (sia.Body TypesTransaction) (sia.getHostsResp HostDetails))
    (tHost : Transport (sia.Body TypesTransaction) (sia.getHostDetailResp HostDetails))
    (tFees : Transport (sia.Body TypesTransaction) sia.getFeesResp)
    (tBalance : Transport (sia.Body TypesTransaction)
      (sia.GetTransactionsResp SiacoinOutput SiafundOutput Transaction))
    (tUsed : Transport (sia.Body TypesTransaction) (sia.getAddressesResp AddressUsage))
    (tBroadcast : Transport (sia.Body TypesTransaction) sia.APIResponse)
    (oFees : Transport apiclient.Body apiclient.getFeesResp)
    (oBalance : Transport apiclient.Body
      (apiclient.GetTransactionsResp OldSiacoinOutput WalletTransaction))
    (oUsed : Transport apiclient.Body (apiclient.getAddressesResp OldAddressUsage))
    (tConnection : Transport β (scprime.getConnectionResp ConnectionReport))
    (page limit : Int) (filters : List sia.HostFilter) (id address netaddress : String)
    (addresses : List String) (transactions : List TypesTransaction)
    (h : addresses.length ≤ 10000) :
    PropagatesTransportError tAverages (sia.GetNetworkAverages tAverages) ∧
      PropagatesTransportError tHosts
        (sia.GetActiveHosts QueryEscape tHosts page limit filters) ∧
      PropagatesTransportError tHost (sia.GetHost PathEscape tHost id) ∧
      PropagatesTransportError tFees (sia.GetTransactionFees tFees) ∧
      PropagatesTransportError tFees (sia.GetAPIFees tFees) ∧
      PropagatesTransportError tBalance
        (sia.FindAddressBalance tBalance limit page addresses) ∧
      PropagatesTransportError tUsed (sia.FindUsedAddresses tUsed addresses) ∧
      PropagatesTransportError tBalance (sia.GetAddressBalance tBalance limit page address) ∧
      PropagatesTransportError tBroadcast
        (sia.BroadcastTransactionSet tBroadcast transactions) ∧
      PropagatesTransportError oFees (apiclient.GetTransactionFees oFees) ∧
      PropagatesTransportError oBalance
        (apiclient.FindAddressBalance oBalance limit page addresses) ∧
      PropagatesTransportError oUsed (apiclient.FindUsedAddresses oUsed addresses) ∧
      PropagatesTransportError oBalance
        (apiclient.GetAddressBalance oBalance limit page address) ∧
      PropagatesTransportError tConnection
        (scprime.GetHostConnectivity PathEscape tConnection netaddress) := by
  refine ⟨?_, ?_, ?_, ?_, ?_, ?_, ?_, ?_, ?_, ?_, ?_, ?_, ?_, ?_⟩
  · obtain ⟨req, h1, h2, _⟩ := sia_GetNetworkAverages_shape tAverages
    exact propagates_of_statusTypeErr _ (fun r => r.Type_) (fun r => r.Message) _ ⟨req, h1, h2⟩
  · obtain ⟨req, h1, h2, _⟩ := sia_GetActiveHosts_shape QueryEscape tHosts page limit filters
    exact propagates_of_statusTypeErr _ (fun r => r.Type_) (fun r => r.Message) _ ⟨req, h1, h2⟩
  · obtain ⟨req, h1, h2, _⟩ := sia_GetHost_shape PathEscape tHost id
    exact propagates_of_statusTypeErr _ (fun r => r.Type_) (fun r => r.Message) _ ⟨req, h1, h2⟩
  · obtain ⟨req, h1, h2, _⟩ := sia_GetTransactionFees_shape tFees
    exact propagates_of_statusTypeErr _ (fun r => r.Type_) (fun r => r.Message) _ ⟨req, h1, h2⟩
  · obtain ⟨req, h1, h2, _⟩ := sia_GetAPIFees_shape tFees
    exact propagates_of_statusTypeErr _ (fun r => r.Type_) (fun r => r.Message) _ ⟨req, h1, h2⟩
  · obtain ⟨req, h1, h2, _⟩ := sia_FindAddressBalance_shape tBalance limit page addresses h
    exact propagates_of_statusTypeErr _ (fun r => r.Type_) (fun r => r.Message) _ ⟨req, h1, h2⟩
  · obtain ⟨req, h1, h2, _⟩ := sia_FindUsedAddresses_shape tUsed addresses h
    exact propagates_of_statusTypeErr _ (fun r => r.Type_) (fun r => r.Message) _ ⟨req, h1, h2⟩
  · obtain ⟨req, h1, h2, _⟩ := sia_GetAddressBalance_shape tBalance limit page address
    exact propagates_of_statusTypeErr _ (fun r => r.Type_) (fun r => r.Message) _ ⟨req, h1, h2⟩
  · obtain ⟨req, h1, h2⟩ := sia_BroadcastTransactionSet_shape tBroadcast transactions
    exact propagates_of_statusTypeErr _ (fun r => r.Type_) (fun r => r.Message) _ ⟨req, h1, h2⟩
  · obtain ⟨req, h1, h2, _⟩ := apiclient_GetTransactionFees_shape oFees
    exact propagates_of_statusTypeErr _ (fun r => r.Type_) (fun r => r.Message) _ ⟨req, h1, h2⟩
  · obtain ⟨req, h1, h2, _⟩ := apiclient_FindAddressBalance_shape oBalance limit page addresses h
    exact propagates_of_statusTypeErr _ (fun r => r.Type_) (fun r => r.Message) _ ⟨req, h1, h2⟩
  · obtain ⟨req, h1, h2, _⟩ := apiclient_FindUsedAddresses_shape oUsed addresses h
    exact propagates_of_statusTypeErr _ (fun r => r.Type_) (fun r => r.Message) _ ⟨req, h1, h2⟩
  · obtain ⟨req, h1, h2, _⟩ := apiclient_GetAddressBalance_shape oBalance limit page address
    exact propagates_of_statusTypeErr _ (fun r => r.Type_) (fun r => r.Message) _ ⟨req, h1, h2⟩
  · obtain ⟨req, h1, h2, _⟩ :=
      scprime_GetHostConnectivity_shape PathEscape tConnection netaddress
    refine ⟨req, h1, fun e hte => ?_⟩
    rw [h2, hte]
    rfl

end transportErrors

/-- C9, at a concrete input: every transport helper returns the error "timeout"
together with status 200 and an envelope of type "success"; the address list has
one entry. -/
theorem transport_error_returned_unchanged_witness :
    ["addr"].length ≤ 10000 ∧
      (PropagatesTransportError
          (sia.sampleAverages 200 (some (GoError.transportError "timeout")) "success" "")
          (sia.GetNetworkAverages
            (sia.sampleAverages 200 (some (GoError.transportError "timeout")) "success" "")) ∧
        PropagatesTransportError
          (sia.sampleHosts 200 (some (GoError.transportError "timeout")) "success" "")
          (sia.GetActiveHosts id
            (sia.sampleHosts 200 (some (GoError.transportError "timeout")) "success" "") 0 10 []) ∧
        PropagatesTransportError
          (sia.sampleHost 200 (some (GoError.transportError "timeout")) "success" "")
          (sia.GetHost id
            (sia.sampleHost 200 (some (GoError.transportError "timeout")) "success" "") "host") ∧
        PropagatesTransportError
          (sia.sampleFees 200 (some (GoError.transportError "timeout")) "success" "")
          (sia.GetTransactionFees
            (sia.sampleFees 200 (some (GoError.transportError "timeout")) "success" "")) ∧
        PropagatesTransportError
          (sia.sampleFees 200 (some (GoError.transportError "timeout")) "success" "")
          (sia.GetAPIFees
            (sia.sampleFees 200 (some (GoError.transportError "timeout")) "success" "")) ∧
        PropagatesTransportError
          (sia.sampleBalance 200 (some (GoError.transportError "timeout")) "success" "")
          (sia.FindAddressBalance
            (sia.sampleBalance 200 (some (GoError.transportError "timeout")) "success" "")
            10 0 ["addr"]) ∧
        PropagatesTransportError
          (sia.sampleUsed 200 (some (GoError.transportError "timeout")) "success" "")
          (sia.FindUsedAddresses
            (sia.sampleUsed 200 (some (GoError.transportError "timeout")) "success" "")
            ["addr"]) ∧
        PropagatesTransportError
          (sia.sampleBalance 200 (some (GoError.transportError "timeout")) "success" "")
          (sia.GetAddressBalance
            (sia.sampleBalance 200 (some (GoError.transportError "timeout")) "success" "")
            10 0 "one") ∧
        PropagatesTransportError
          (sia.sampleBroadcast 200 (some (GoError.transportError "timeout")) "success" "")
          (sia.BroadcastTransactionSet
            (sia.sampleBroadcast 200 (some (GoError.transportError "timeout")) "success" "")
            [()]) ∧
        PropagatesTransportError
          (apiclient.sampleFees 200 (some (GoError.transportError "timeout")) "success" "")
          (apiclient.GetTransactionFees
            (apiclient.sampleFees 200 (some (GoError.transportError "timeout")) "success" "")) ∧
        PropagatesTransportError
          (apiclient.sampleBalance 200 (some (GoError.transportError "timeout")) "success" "")
          (apiclient.FindAddressBalance
            (apiclient.sampleBalance 200 (some (GoError.transportError "timeout")) "success" "")
            10 0 ["addr"]) ∧
        PropagatesTransportError
          (apiclient.sampleUsed 200 (some (GoError.transportError "timeout")) "success" "")
          (apiclient.FindUsedAddresses
            (apiclient.sampleUsed 200 (some (GoError.transportError "timeout")) "success" "")
            ["addr"]) ∧
        PropagatesTransportError
          (apiclient.sampleBalance 200 (some (GoError.transportError "timeout")) "success" "")
          (apiclient.GetAddressBalance
            (apiclient.sampleBalance 200 (some (GoError.transportError "timeout")) "success" "")
            10 0 "one") ∧
        PropagatesTransportError
          (scprime.sampleConnection 200 (some (GoError.transportError "timeout")) "success" "")
          (scprime.GetHostConnectivity id
            (scprime.sampleConnection 200 (some (GoError.transportError "timeout")) "success" "")
            "host:9982")) :=
  ⟨by decide,
    transport_error_returned_unchanged id id _ _ _ _ _ _ _ _ _ _ _ 0 10 [] "host" "one"
      "host:9982" ["addr"] [()] (by decide)⟩

/-- A transport error that comes with status 200 and type "success" is returned
as it is: `GetHost` and `GetHostConnectivity` evaluated on such a reply. -/
theorem transport_error_wins_over_success :
    (sia.GetHost id
        (sia.sampleHost 200 (some (GoError.transportError "timeout")) "success" "") "host").err =
        some (GoError.transportError "timeout") ∧
      (scprime.GetHostConnectivity id
        (scprime.sampleConnection 200 (some (GoError.transportError "timeout")) "success" "")
        "host:9982").err = some (GoError.transportError "timeout") := by
  decide

/-! ## UniqueID in hex -/

theorem hexChar_mem_hextable (n : Nat) (h : n < 16) : hexChar n ∈ hextable := by
  revert n
  decide

theorem fromHexChar_hexChar (n : Nat) (h : n < 16) : fromHexChar (hexChar n) = some n := by
  revert n
  decide

theorem jsonEscapeChar_hexChar (n : Nat) (h : n < 16) :
    jsonEscapeChar (hexChar n) = [hexChar n] := by
  revert n
  decide

theorem hexEncode_length (src : List Nat) : (hexEncodeToString src).length = 2 * src.length := by
  simp only [hexEncodeToString, String.length]
  induction src with
  | nil => rfl
  | cons v rest ih =>
    simp only [List.flatMap_cons, List.length_append, List.length_cons, List.length_nil, ih]
    omega

theorem hexEncode_chars (src : List Nat) (h : ∀ b ∈ src, b < 256) :
    ∀ c ∈ (hexEncodeToString src).data, c ∈ hextable := by
  simp only [hexEncodeToString]
  induction src with
  | nil =>
    intro c hc
    cases hc
  | cons v rest ih =>
    intro c hc
    have hv : v < 256 := h v (List.mem_cons_self _ _)
    simp only [List.flatMap_cons, List.mem_append, List.mem_cons, List.not_mem_nil,
      or_false] at hc
    rcases hc with (hc | hc) | hc
    · rw [hc]
      exact hexChar_mem_hextable _ (by omega)
    · rw [hc]
      exact hexChar_mem_hextable _ (by omega)
    · exact ih (fun b hb => h b (List.mem_cons_of_mem _ hb)) c hc

theorem hexDecodeChars_pair (n m : Nat) (hn : n < 16) (hm : m < 16) (cs : List Char)
    (tail : List Nat) (h : hexDecodeChars cs = some tail) :
    hexDecodeChars (hexChar n :: hexChar m :: cs) = some ((n * 16 + m) :: tail) := by
  simp only [hexDecodeChars, fromHexChar_hexChar n hn, fromHexChar_hexChar m hm, h]

theorem hexDecode_hexEncode (src : List Nat) (h : ∀ b ∈ src, b < 256) :
    hexDecodeString (hexEncodeToString src) = some src := by
  simp only [hexDecodeString, hexEncodeToString]
  induction src with
  | nil => rfl
  | cons v rest ih =>
    have hv : v < 256 := h v (List.mem_cons_self _ _)
    have hrest := ih (fun b hb => h b (List.mem_cons_of_mem _ hb))
    have hpair := hexDecodeChars_pair (v / 16) (v % 16) (by omega) (by omega) _ rest hrest
    have hval : v / 16 * 16 + v % 16 = v := by omega
    rw [hval] at hpair
    exact hpair

theorem jsonEscapeChar_of_hex : ∀ c ∈ hextable, jsonEscapeChar c = [c] := by
  decide

theorem jsonEscape_of_hex (cs : List Char) (h : ∀ c ∈ cs, c ∈ hextable) :
    cs.flatMap jsonEscapeChar = cs := by
  induction cs with
  | nil => rfl
  | cons c rest ih =>
    have hc : jsonEscapeChar c = [c] := jsonEscapeChar_of_hex c (h c (List.mem_cons_self _ _))
    simp only [List.flatMap_cons, hc, List.singleton_append,
      ih (fun c hc => h c (List.mem_cons_of_mem _ hc))]

/-- C10: for every 16-byte `UniqueID`, `String` returns 32 characters, all of them
lowercase hex digits; hex-decoding that string yields the original 16 bytes; and
`MarshalJSON` returns that same hex string between two double quotes, with a nil
error. -/
theorem UniqueID_hex_round_trip (uid : sia.UniqueID) :
    uid.String.length = 32 ∧
      (∀ c ∈ uid.String.data, c ∈ "0123456789abcdef".toList) ∧
      hexDecodeString uid.String = some uid.bytes ∧
      uid.MarshalJSON =
        (String.mk ([Char.ofNat 34] ++ uid.String.data ++ [Char.ofNat 34]), none) := by
  refine ⟨?_, ?_, ?_, ?_⟩
  · simp only [sia.UniqueID.String]
    rw [hexEncode_length, uid.size_eq]
  · exact hexEncode_chars uid.bytes uid.byte_lt
  · exact hexDecode_hexEncode uid.bytes uid.byte_lt
  · have hesc : uid.String.data.flatMap jsonEscapeChar = uid.String.data :=
      jsonEscape_of_hex uid.String.data (hexEncode_chars uid.bytes uid.byte_lt)
    simp only [sia.UniqueID.MarshalJSON, jsonMarshalString, hesc]

/-- C10, at a concrete input: the identifier ab cd ef 01 23 45 67 89 00 ff 10 20 30
40 50 60; its hex string holds the character `a`, which is a lowercase hex digit,
and decodes to the 16 bytes. -/
theorem UniqueID_hex_round_trip_witness :
    'a' ∈ sia.sampleUID.String.data ∧
      'a' ∈ "0123456789abcdef".toList ∧
      hexDecodeString sia.sampleUID.String = some sia.sampleUID.bytes :=
  ⟨by decide, (UniqueID_hex_round_trip sia.sampleUID).2.1 (Char.ofNat 97) (by decide),
    (UniqueID_hex_round_trip sia.sampleUID).2.2.1⟩

/-- The hex form and the JSON text of the sample identifier. -/
theorem UniqueID_hex_sample :
    sia.sampleUID.String = "abcdef012345678900ff102030405060" ∧
      sia.sampleUID.MarshalJSON =
        (String.mk ([Char.ofNat 34] ++ "abcdef012345678900ff102030405060".data ++ [Char.ofNat 34]),
          none) := by
  decide

/-! ## The payload on success -/

theorem not_failure_of_success (code : Int) (type : String) (h1 : 200 ≤ code) (h2 : code < 300)
    (h3 : type = "success") : ¬ (code < 200 ∨ code ≥ 300 ∨ type ≠ "success") := by
  rintro (h | h | h)
  · omega
  · omega
  · exact h h3

section success
variable {HostConfig AvgHostBenchmark HostDetails AddressUsage TypesTransaction
  OldAddressUsage : Type}

theorem sia_GetNetworkAverages_success [Inhabited HostConfig] [Inhabited AvgHostBenchmark]
    (t : Transport (sia.Body TypesTransaction) (sia.getAveragesResp HostConfig AvgHostBenchmark)) :
    ReturnsOnSuccess t (fun r => r.Type_)
      (fun r => (r.Settings, r.Benchmarks, r.BenchmarksRHP2)) (sia.GetNetworkAverages t) := by
  refine ⟨⟨MethodGet, "/hosts/network/averages", none⟩, ?_, fun he h1 h2 h3 => ?_⟩
  · simp only [sia.GetNetworkAverages]
    split <;> (try split) <;> rfl
  · have hc := not_failure_of_success _ _ h1 h2 h3
    simp [sia.GetNetworkAverages, he, hc]

theorem sia_GetActiveHosts_success (QueryEscape : String → String)
    (t : Transport (sia.Body TypesTransaction) (sia.getHostsResp HostDetails))
    (page limit : Int) (filters : List sia.HostFilter) :
    ReturnsOnSuccess t (fun r => r.Type_) (fun r => r.Hosts)
      (sia.GetActiveHosts QueryEscape t page limit filters) := by
  refine ⟨⟨MethodGet, sia.GetActiveHosts.endpoint
      ((sia.GetActiveHosts.values page limit filters).Encode QueryEscape), none⟩, ?_,
    fun he h1 h2 h3 => ?_⟩
  · simp only [sia.GetActiveHosts]
    split <;> (try split) <;> rfl
  · have hc := not_failure_of_success _ _ h1 h2 h3
    simp [sia.GetActiveHosts, he, hc]

theorem sia_GetHost_success [Inhabited HostDetails] (PathEscape : String → String)
    (t : Transport (sia.Body TypesTransaction) (sia.getHostDetailResp HostDetails)) (id : String) :
    ReturnsOnSuccess t (fun r => r.Type_) (fun r => r.Host) (sia.GetHost PathEscape t id) := by
  refine ⟨⟨MethodGet, "/hosts/" ++ PathEscape id, none⟩, ?_, fun he h1 h2 h3 => ?_⟩
  · simp only [sia.GetHost]
    split <;> (try split) <;> rfl
  · have hc := not_failure_of_success _ _ h1 h2 h3
    simp [sia.GetHost, he, hc]

theorem sia_GetTransactionFees_success (t : Transport (sia.Body TypesTransaction) sia.getFeesResp) :
    ReturnsOnSuccess t (fun r => r.Type_) (fun r => (r.Minimum, r.Maximum))
      (sia.GetTransactionFees t) := by
  refine ⟨⟨MethodGet, "/wallet/fees", none⟩, ?_, fun he h1 h2 h3 => ?_⟩
  · simp only [sia.GetTransactionFees]
    split <;> (try split) <;> rfl
  · have hc := not_failure_of_success _ _ h1 h2 h3
    simp [sia.GetTransactionFees, he, hc]

theorem sia_GetAPIFees_success (t : Transport (sia.Body TypesTransaction) sia.getFeesResp) :
    ReturnsOnSuccess t (fun r => r.Type_) (fun r => (r.API.Fee, r.API.Address))
      (sia.GetAPIFees t) := by
  refine ⟨⟨MethodGet, "/wallet/fees", none⟩, ?_, fun he h1 h2 h3 => ?_⟩
  · simp only [sia.GetAPIFees]
    split <;> (try split) <;> rfl
  · have hc := not_failure_of_success _ _ h1 h2 h3
    simp [sia.GetAPIFees, he, hc]

theorem sia_FindUsedAddresses_success
    (t : Transport (sia.Body TypesTransaction) (sia.getAddressesResp AddressUsage))
    (addresses : List String) (h : addresses.length ≤ 10000) :
    ReturnsOnSuccess t (fun r => r.Type_) (fun r => r.Addresses)
      (sia.FindUsedAddresses t addresses) := by
  have hlen : ¬ addresses.length > 10000 := by omega
  refine ⟨⟨MethodPost, "/wallet/addresses/used", some (sia.Body.addresses addresses)⟩, ?_,
    fun he h1 h2 h3 => ?_⟩
  · simp only [sia.FindUsedAddresses, hlen, if_false]
    split <;> (try split) <;> rfl
  · have hc := not_failure_of_success _ _ h1 h2 h3
    simp [sia.FindUsedAddresses, hlen, he, hc]

theorem apiclient_GetTransactionFees_success (t : Transport apiclient.Body apiclient.getFeesResp) :
    ReturnsOnSuccess t (fun r => r.Type_) (fun r => (r.Minimum, r.Maximum, r.SiaCentral))
      (apiclient.GetTransactionFees t) := by
  refine ⟨⟨MethodGet, "/wallet/fees", none⟩, ?_, fun he h1 h2 h3 => ?_⟩
  · simp only [apiclient.GetTransactionFees]
    split <;> (try split) <;> rfl
  · have hc := not_failure_of_success _ _ h1 h2 h3
    simp [apiclient.GetTransactionFees, he, hc]

theorem apiclient_FindUsedAddresses_success
    (t : Transport apiclient.Body (apiclient.getAddressesResp OldAddressUsage))
    (addresses : List String) (h : addresses.length ≤ 10000) :
    ReturnsOnSuccess t (fun r => r.Type_) (fun r => r.Addresses)
      (apiclient.FindUsedAddresses t addresses) := by
  have hlen : ¬ addresses.length > 10000 := by omega
  refine ⟨⟨MethodPost, "/wallet/addresses/used", some (apiclient.Body.addresses addresses)⟩, ?_,
    fun he h1 h2 h3 => ?_⟩
  · simp only [apiclient.FindUsedAddresses, hlen, if_false]
    split <;> (try split) <;> rfl
  · have hc := not_failure_of_success _ _ h1 h2 h3
    simp [apiclient.FindUsedAddresses, hlen, he, hc]

/-- C11: on success (no transport error, status in [200, 300), envelope type
"success") each endpoint returns a nil error and exactly the payload fields of
the decoded envelope: `GetNetworkAverages` (Settings, Benchmarks, BenchmarksRHP2)
in that order, `GetActiveHosts` Hosts, `GetHost` Host, `GetTransactionFees`
(Minimum, Maximum), `GetAPIFees` (API.Fee, API.Address), `FindUsedAddresses` of
both generations Addresses (the address list being within the ceiling), and the
old-generation `GetTransactionFees` (Minimum, Maximum, SiaCentral). -/
theorem endpoints_return_payload_on_success [Inhabited HostConfig] [Inhabited AvgHostBenchmark]
    [Inhabited HostDetails] (PathEscape QueryEscape : String → String)
    (tAverages : Transport (sia.Body TypesTransaction)
      (sia.getAveragesResp HostConfig AvgHostBenchmark))
    (tHosts : Transport (sia.Body TypesTransaction) (sia.getHostsResp HostDetails))
    (tHost : Transport (sia.Body TypesTransaction) (sia.getHostDetailResp HostDetails))
    (tFees : Transport (sia.Body TypesTransaction) sia.getFeesResp)
    (tUsed : Transport (sia.Body TypesTransaction) (sia.getAddressesResp AddressUsage))
    (oFees : Transport apiclient.Body apiclient.getFeesResp)
    (oUsed : Transport apiclient.Body (apiclient.getAddressesResp OldAddressUsage))
    (page limit : Int) (filters : List sia.HostFilter) (id : String)
    (addresses : List String) (h : addresses.length ≤ 10000) :
    ReturnsOnSuccess tAverages (fun r => r.Type_)
        (fun r => (r.Settings, r.Benchmarks, r.BenchmarksRHP2))
        (sia.GetNetworkAverages tAverages) ∧
      ReturnsOnSuccess tHosts (fun r => r.Type_) (fun r => r.Hosts)
        (sia.GetActiveHosts QueryEscape tHosts page limit filters) ∧
      ReturnsOnSuccess tHost (fun r => r.Type_) (fun r => r.Host)
        (sia.GetHost PathEscape tHost id) ∧
      ReturnsOnSuccess tFees (fun r => r.Type_) (fun r => (r.Minimum, r.Maximum))
        (sia.GetTransactionFees tFees) ∧
      ReturnsOnSuccess tFees (fun r => r.Type_) (fun r => (r.API.Fee, r.API.Address))
        (sia.GetAPIFees tFees) ∧
      ReturnsOnSuccess tUsed (fun r => r.Type_) (fun r => r.Addresses)
        (sia.FindUsedAddresses tUsed addresses) ∧
      ReturnsOnSuccess oFees (fun r => r.Type_)
        (fun r => (r.Minimum, r.Maximum, r.SiaCentral))
        (apiclient.GetTransactionFees oFees) ∧
      ReturnsOnSuccess oUsed (fun r => r.Type_) (fun r => r.Addresses)
        (apiclient.FindUsedAddresses oUsed addresses) :=
  ⟨sia_GetNetworkAverages_success tAverages,
    sia_GetActiveHosts_success QueryEscape tHosts page limit filters,
    sia_GetHost_success PathEscape tHost id,
    sia_GetTransactionFees_success tFees,
    sia_GetAPIFees_success tFees,
    sia_FindUsedAddresses_success tUsed addresses h,
    apiclient_GetTransactionFees_success oFees,
    apiclient_FindUsedAddresses_success oUsed addresses h⟩

end success

/-- C11, at a concrete input: every transport helper answers with status 200, no
error and an envelope of type "success"; the fee endpoints and
`FindUsedAddresses` return the payload fields of the sample envelopes. -/
theorem endpoints_return_payload_on_success_witness :
    ["addr"].length ≤ 10000 ∧
      ((sia.GetTransactionFees (sia.sampleFees 200 none "success" "")).err = none ∧
        (sia.GetTransactionFees (sia.sampleFees 200 none "success" "")).value = (⟨1⟩, ⟨2⟩)) ∧
      ((sia.GetAPIFees (sia.sampleFees 200 none "success" "")).err = none ∧
        (sia.GetAPIFees (sia.sampleFees 200 none "success" "")).value = (⟨3⟩, "payout")) ∧
      ((sia.FindUsedAddresses (sia.sampleUsed 200 none "success" "") ["addr"]).err = none ∧
        (sia.FindUsedAddresses (sia.sampleUsed 200 none "success" "") ["addr"]).value = [()]) ∧
      ((apiclient.GetTransactionFees (apiclient.sampleFees 200 none "success" "")).err = none ∧
        (apiclient.GetTransactionFees (apiclient.sampleFees 200 none "success" "")).value =
          (⟨1⟩, ⟨2⟩, ⟨3⟩)) := by
  have hlen : ["addr"].length ≤ 10000 := by decide
  have H := endpoints_return_payload_on_success id id
    (sia.sampleAverages 200 none "success" "") (sia.sampleHosts 200 none "success" "")
    (sia.sampleHost 200 none "success" "") (sia.sampleFees 200 none "success" "")
    (sia.sampleUsed 200 none "success" "") (apiclient.sampleFees 200 none "success" "")
    (apiclient.sampleUsed 200 none "success" "") 0 10 [] "host" ["addr"] hlen
  obtain ⟨_, _, _, ⟨_, _, hFees⟩, ⟨_, _, hAPI⟩, ⟨_, _, hUsed⟩, ⟨_, _, hOld⟩, _⟩ := H
  have hlo : (200 : Int) ≤ 200 := by decide
  have hhi : (200 : Int) < 300 := by decide
  exact ⟨hlen, hFees rfl hlo hhi rfl, hAPI rfl hlo hhi rfl, hUsed rfl hlo hhi rfl,
    hOld rfl hlo hhi rfl⟩

/-! ## GetAddressBalance and its limit and page arguments -/

/-- C12: `GetAddressBalance` of both client generations ignores its limit and page
arguments. For every address and every two pairs (limit, page) and (limit',
page') the one request it dispatches is the same, a GET of `/wallet/addresses/`
followed by the address as it is, with no query and no body; and against the
same transport helper the whole outcome (value, error and requests) is the
same. -/
theorem GetAddressBalance_ignores_limit_and_page
    {SiacoinOutput SiafundOutput Transaction TypesTransaction OldSiacoinOutput
      WalletTransaction : Type}
    (tBalance : Transport (sia.Body TypesTransaction)
      (sia.GetTransactionsResp SiacoinOutput SiafundOutput Transaction))
    (oBalance : Transport apiclient.Body
      (apiclient.GetTransactionsResp OldSiacoinOutput WalletTransaction))
    (limit page limit' page' : Int) (address : String) :
    ((sia.GetAddressBalance tBalance limit page address).calls =
          [⟨"GET", "/wallet/addresses/" ++ address, none⟩] ∧
        (sia.GetAddressBalance tBalance limit' page' address).calls =
          [⟨"GET", "/wallet/addresses/" ++ address, none⟩] ∧
        sia.GetAddressBalance tBalance limit page address =
          sia.GetAddressBalance tBalance limit' page' address) ∧
      ((apiclient.GetAddressBalance oBalance limit page address).calls =
          [⟨"GET", "/wallet/addresses/" ++ address, none⟩] ∧
        (apiclient.GetAddressBalance oBalance limit' page' address).calls =
          [⟨"GET", "/wallet/addresses/" ++ address, none⟩] ∧
        apiclient.GetAddressBalance oBalance limit page address =
          apiclient.GetAddressBalance oBalance limit' page' address) := by
  refine ⟨⟨?_, ?_, rfl⟩, ⟨?_, ?_, rfl⟩⟩
  · simp only [sia.GetAddressBalance]
    split <;> (try split) <;> rfl
  · simp only [sia.GetAddressBalance]
    split <;> (try split) <;> rfl
  · simp only [apiclient.GetAddressBalance]
    split <;> (try split) <;> rfl
  · simp only [apiclient.GetAddressBalance]
    split <;> (try split) <;> rfl

/-- An address that holds a slash, a blank and a question mark reaches the path
of the request as it is, for limit 10, page 0 as for limit 99, page 7. -/
theorem GetAddressBalance_address_verbatim :
    ((sia.GetAddressBalance (sia.sampleBalance 200 none "success" "") 10 0
        "a/b c?limit=1").calls.map fun r => (r.method, r.url, r.body.isNone)) =
        [("GET", "/wallet/addresses/a/b c?limit=1", true)] ∧
      ((sia.GetAddressBalance (sia.sampleBalance 200 none "success" "") 99 7
        "a/b c?limit=1").calls.map fun r => (r.method, r.url, r.body.isNone)) =
        [("GET", "/wallet/addresses/a/b c?limit=1", true)] ∧
      ((apiclient.GetAddressBalance (apiclient.sampleBalance 200 none "success" "") 99 7
        "a/b c?limit=1").calls.map fun r => (r.method, r.url, r.body.isNone)) =
        [("GET", "/wallet/addresses/a/b c?limit=1", true)] := by
  decide

/-! ## The query string of the request -/

theorem intercalate_go_length (sep : String) (l : List String) (acc : String) :
    acc.length ≤ (String.intercalate.go acc sep l).length ∧
      ∀ b ∈ l, b.length ≤ (String.intercalate.go acc sep l).length := by
  induction l generalizing acc with
  | nil => exact ⟨Nat.le_refl _, fun b hb => by cases hb⟩
  | cons a rest ih =>
    obtain ⟨h1, h2⟩ := ih (acc ++ sep ++ a)
    simp only [String.length_append] at h1
    refine ⟨?_, fun b hb => ?_⟩
    · simp only [String.intercalate.go]
      omega
    · simp only [String.intercalate.go]
      rcases List.mem_cons.mp hb with h | h
      · subst h
        omega
      · exact h2 b h

theorem intercalate_ne_empty (sep : String) (l : List String) (s : String) (hs : s ∈ l)
    (hlen : 0 < s.length) : sep.intercalate l ≠ "" := by
  intro hempty
  have hzero : (sep.intercalate l).length = 0 := by
    rw [hempty]
    rfl
  cases l with
  | nil => cases hs
  | cons a rest =>
    obtain ⟨h1, h2⟩ := intercalate_go_length sep rest a
    simp only [String.intercalate] at hzero
    rcases List.mem_cons.mp hs with h | h
    · subst h
      omega
    · have := h2 s h
      omega

namespace Values

theorem mem_Add_self (v : Values) (key value : String) :
    ∃ vs, (key, vs ++ [value]) ∈ v.Add key value := by
  induction v with
  | nil => exact ⟨[], by simp [Add]⟩
  | cons e rest ih =>
    obtain ⟨k0, vs0⟩ := e
    by_cases h0 : k0 = key
    · subst h0
      exact ⟨vs0, by simp [Add]⟩
    · obtain ⟨vs, hvs⟩ := ih
      exact ⟨vs, by
        simp only [Add, h0, if_false]
        exact List.mem_cons_of_mem _ hvs⟩

theorem mem_pairs (v : Values) (k x : String) :
    (k, x) ∈ pairs v ↔ ∃ vs, (k, vs) ∈ v ∧ x ∈ vs := by
  simp only [pairs, List.mem_flatMap, List.mem_map, Prod.mk.injEq]
  constructor
  · rintro ⟨e, he, y, hy, h1, h2⟩
    refine ⟨e.2, ?_, h2 ▸ hy⟩
    have hv : e ∈ v := (sortedByKey_perm v).mem_iff.mp he
    rw [← h1]
    exact hv
  · rintro ⟨vs, hvs, hx⟩
    exact ⟨(k, vs), (sortedByKey_perm v).mem_iff.mpr hvs, x, hx, rfl, rfl⟩

theorem Get?_mem (v : Values) (k : String) (vs : List String) (h : v.Get? k = some vs) :
    (k, vs) ∈ v := by
  induction v with
  | nil => cases h
  | cons e rest ih =>
    obtain ⟨k0, vs0⟩ := e
    by_cases h0 : k0 = k
    · simp only [Get?, h0, if_true, Option.some.injEq] at h
      rw [h0, h]
      exact List.mem_cons_self _ _
    · simp only [Get?, h0, if_false] at h
      exact List.mem_cons_of_mem _ (ih h)

theorem Get?_sortedByKey (v : Values) (k : String) (hn : v.keys.Nodup) :
    (sortedByKey v).Get? k = v.Get? k := by
  have hperm : List.Perm (sortedByKey v).keys v.keys := (sortedByKey_perm v).map Prod.fst
  have hn2 : (sortedByKey v).keys.Nodup := hperm.nodup_iff.mpr hn
  cases hv : v.Get? k with
  | none =>
    rw [Get?_eq_none_iff] at hv ⊢
    exact fun hk => hv (hperm.mem_iff.mp hk)
  | some vs =>
    exact Get?_of_mem _ k vs hn2 ((sortedByKey_perm v).mem_iff.mpr (Get?_mem v k vs hv))

theorem filter_flatMap_of_nodup (l : Values) (k : String) (hn : l.keys.Nodup) :
    (((l.flatMap fun e => e.2.map fun x => (e.1, x)).filter fun p => decide (p.1 = k)).map
      Prod.snd) = (l.Get? k).getD [] := by
  induction l with
  | nil => rfl
  | cons e rest ih =>
    obtain ⟨k0, vs0⟩ := e
    simp only [keys, List.map_cons, List.nodup_cons] at hn
    have ih2 := ih hn.2
    simp only [List.flatMap_cons, List.filter_append, List.map_append, ih2]
    by_cases h0 : k0 = k
    · subst h0
      have hnone : Get? rest k0 = none := (Get?_eq_none_iff rest k0).mpr hn.1
      have hall : (List.map (fun x => (k0, x)) vs0).filter (fun p => decide (p.1 = k0)) =
          List.map (fun x => (k0, x)) vs0 := by
        apply List.filter_eq_self.mpr
        intro p hp
        obtain ⟨x, _, rfl⟩ := List.mem_map.mp hp
        simp
      simp [hall, hnone, Get?]
    · have hnone : (List.map (fun x => (k0, x)) vs0).filter (fun p => decide (p.1 = k)) = [] := by
        apply List.filter_eq_nil_iff.mpr
        intro p hp
        obtain ⟨x, _, rfl⟩ := List.mem_map.mp hp
        simp [h0]
      simp [hnone, Get?, h0]

theorem queryValues_eq (v : Values) (k : String) (hn : v.keys.Nodup) :
    queryValues v k = (v.Get? k).getD [] := by
  have hperm : List.Perm (sortedByKey v).keys v.keys := (sortedByKey_perm v).map Prod.fst
  simp only [queryValues, pairs]
  rw [filter_flatMap_of_nodup _ k (hperm.nodup_iff.mpr hn), Get?_sortedByKey v k hn]

end Values

namespace sia

theorem values_eq_Add (page limit : Int) (filters : List HostFilter) :
    GetActiveHosts.values page limit filters =
      Values.Add
        (Values.Add (filters.foldl (fun values f => f values) []) "page"
          (Itoa (if page < 0 then 0 else page)))
        "limit" (Itoa (if limit < 0 ∨ limit > 500 then 500 else limit)) := rfl

theorem clamp_page (page : Int) : (if page < 0 then 0 else page) = max page 0 := by
  by_cases h : page < 0
  · rw [if_pos h, max_eq_right (le_of_lt h)]
  · rw [if_neg h, max_eq_left (not_lt.mp h)]

theorem clamp_limit (limit : Int) :
    (if limit < 0 ∨ limit > 500 then 500 else limit) =
      if 0 ≤ limit ∧ limit ≤ 500 then limit else 500 := by
  by_cases h : limit < 0 ∨ limit > 500
  · rw [if_pos h, if_neg (by omega)]
  · rw [if_neg h, if_pos (by omega)]

theorem values_Get?_page (page limit : Int) (filters : List HostFilter) :
    (GetActiveHosts.values page limit filters).Get? "page" =
      some ((Values.Get? (filters.foldl (fun values f => f values) []) "page").getD [] ++
        [Itoa (max page 0)]) := by
  rw [values_eq_Add, Values.Get?_Add, if_neg (by decide), Values.Get?_Add, if_pos rfl, clamp_page]

theorem values_Get?_limit (page limit : Int) (filters : List HostFilter) :
    (GetActiveHosts.values page limit filters).Get? "limit" =
      some ((Values.Get? (filters.foldl (fun values f => f values) []) "limit").getD [] ++
        [Itoa (if 0 ≤ limit ∧ limit ≤ 500 then limit else 500)]) := by
  rw [values_eq_Add, Values.Get?_Add, if_pos rfl, Values.Get?_Add, if_neg (by decide),
    clamp_limit]

theorem values_nodup_of_filters (page limit : Int) (filters : List HostFilter)
    (hmap : (Values.keys (filters.foldl (fun values f => f values) [])).Nodup) :
    (GetActiveHosts.values page limit filters).keys.Nodup := by
  rw [values_eq_Add]
  exact Values.nodup_keys_Add _ _ _ (Values.nodup_keys_Add _ _ _ hmap)

theorem GetActiveHosts_request {HostDetails TypesTransaction : Type}
    (QueryEscape : String → String)
    (t : Transport (Body TypesTransaction) (getHostsResp HostDetails))
    (page limit : Int) (filters : List HostFilter) :
    (GetActiveHosts QueryEscape t page limit filters).calls =
      [⟨"GET", "https://api.siacentral.com/v2/hosts" ++ "?" ++
        "&".intercalate ((GetActiveHosts.values page limit filters).pairs.map
          fun p => QueryEscape p.1 ++ "=" ++ QueryEscape p.2), none⟩] := by
  have hne : Values.Encode QueryEscape (GetActiveHosts.values page limit filters) ≠ "" := by
    obtain ⟨vs, hvs⟩ := Values.mem_Add_self
      (Values.Add (filters.foldl (fun values f => f values) []) "page"
        (Itoa (if page < 0 then 0 else page)))
      "limit" (Itoa (if limit < 0 ∨ limit > 500 then 500 else limit))
    have hp : ("limit", Itoa (if limit < 0 ∨ limit > 500 then 500 else limit)) ∈
        (GetActiveHosts.values page limit filters).pairs := by
      rw [Values.mem_pairs]
      exact ⟨_, hvs, by simp⟩
    apply intercalate_ne_empty "&" _
      (QueryEscape "limit" ++ "=" ++
        QueryEscape (Itoa (if limit < 0 ∨ limit > 500 then 500 else limit)))
    · exact List.mem_map.mpr ⟨_, hp, rfl⟩
    · simp only [String.length_append]
      have : "=".length = 1 := rfl
      omega
  have hcalls : (GetActiveHosts QueryEscape t page limit filters).calls =
      [⟨MethodGet, GetActiveHosts.endpoint
        ((GetActiveHosts.values page limit filters).Encode QueryEscape), none⟩] := by
    simp only [GetActiveHosts]
    split <;> (try split) <;> rfl
  rw [hcalls]
  simp only [GetActiveHosts.endpoint, hne, if_false]
  rfl

end sia

/-- C4, as stated, fails for a filter written by the caller: with the filter that
sets `page` to 9, page 1 and limit 10, the collection carries the two values 9
and 1 under `page`, the request is `...?limit=10&page=9&page=1`, and the values of
the `page` parameter are not the one rendering of max(1, 0). -/
theorem caller_filter_leaves_two_page_values :
    (sia.GetActiveHosts.values 1 10 [fun v => v.Set "page" "9"]).Get? "page" =
        some ["9", "1"] ∧
      ((sia.GetActiveHosts id (sia.sampleHosts 200 none "success" "") 1 10
          [fun v => v.Set "page" "9"]).calls.map fun r => (r.method, r.url, r.body.isNone)) =
        [("GET", "https://api.siacentral.com/v2/hosts?limit=10&page=9&page=1", true)] ∧
      (sia.GetActiveHosts.values 1 10 [fun v => v.Set "page" "9"]).queryValues "page" ≠
        [Itoa (max 1 0)] := by
  decide

/-- C4, amended: for every integer page and limit and any filters, the one request
of `GetActiveHosts` is a GET of the hosts url followed by `?` and the pairs of
the collection joined by `&`, and the collection carries, after the values the
filters left under `page` and `limit`, the decimal rendering of max(page, 0) and
the decimal rendering of limit when 0 <= limit <= 500, of 500 otherwise. When the
filters leave a map in which `page` and `limit` are unset, as every list of the
provided modifiers does, these renderings are the only values of the `page` and
`limit` parameters of the request. Without filters the query is `limit=` and
`page=` with these renderings; limit -1 gives 500, 501 gives 500, 500 stays 500,
0 stays 0, and page -1 gives 0. -/
theorem GetActiveHosts_page_limit_clamped {Float64 HostDetails TypesTransaction : Type}
    (FormatFloat : Float64 → String) (QueryEscape : String → String)
    (t : Transport (sia.Body TypesTransaction) (sia.getHostsResp HostDetails))
    (page limit : Int) (filters : List sia.HostFilter) (ms : List (sia.Modifier Float64)) :
    ((sia.GetActiveHosts QueryEscape t page limit filters).calls =
        [⟨"GET", "https://api.siacentral.com/v2/hosts" ++ "?" ++
          "&".intercalate ((sia.GetActiveHosts.values page limit filters).pairs.map
            fun p => QueryEscape p.1 ++ "=" ++ QueryEscape p.2), none⟩] ∧
      (sia.GetActiveHosts.values page limit filters).Get? "page" =
        some ((Values.Get? (filters.foldl (fun values f => f values) []) "page").getD [] ++
          [Itoa (max page 0)]) ∧
      (sia.GetActiveHosts.values page limit filters).Get? "limit" =
        some ((Values.Get? (filters.foldl (fun values f => f values) []) "limit").getD [] ++
          [Itoa (if 0 ≤ limit ∧ limit ≤ 500 then limit else 500)])) ∧
      ((Values.keys (filters.foldl (fun values f => f values) [])).Nodup →
        "page" ∉ Values.keys (filters.foldl (fun values f => f values) []) →
        "limit" ∉ Values.keys (filters.foldl (fun values f => f values) []) →
        (sia.GetActiveHosts.values page limit filters).queryValues "page" =
            [Itoa (max page 0)] ∧
          (sia.GetActiveHosts.values page limit filters).queryValues "limit" =
            [Itoa (if 0 ≤ limit ∧ limit ≤ 500 then limit else 500)]) ∧
      ((Values.keys ((ms.map (sia.Modifier.filter FormatFloat)).foldl
            (fun values f => f values) [])).Nodup ∧
        "page" ∉ Values.keys ((ms.map (sia.Modifier.filter FormatFloat)).foldl
            (fun values f => f values) []) ∧
        "limit" ∉ Values.keys ((ms.map (sia.Modifier.filter FormatFloat)).foldl
            (fun values f => f values) [])) ∧
      (sia.GetActiveHosts QueryEscape t page limit []).calls =
        [⟨"GET", "https://api.siacentral.com/v2/hosts" ++ "?" ++
          "&".intercalate
            [QueryEscape "limit" ++ "=" ++
                QueryEscape (Itoa (if 0 ≤ limit ∧ limit ≤ 500 then limit else 500)),
              QueryEscape "page" ++ "=" ++ QueryEscape (Itoa (max page 0))], none⟩] ∧
      (((sia.GetActiveHosts id (sia.sampleHosts 200 none "success" "") 0 (-1) []).calls.map
            fun r => r.url) = ["https://api.siacentral.com/v2/hosts?limit=500&page=0"] ∧
        ((sia.GetActiveHosts id (sia.sampleHosts 200 none "success" "") 0 501 []).calls.map
            fun r => r.url) = ["https://api.siacentral.com/v2/hosts?limit=500&page=0"] ∧
        ((sia.GetActiveHosts id (sia.sampleHosts 200 none "success" "") 0 500 []).calls.map
            fun r => r.url) = ["https://api.siacentral.com/v2/hosts?limit=500&page=0"] ∧
        ((sia.GetActiveHosts id (sia.sampleHosts 200 none "success" "") 0 0 []).calls.map
            fun r => r.url) = ["https://api.siacentral.com/v2/hosts?limit=0&page=0"] ∧
        ((sia.GetActiveHosts id (sia.sampleHosts 200 none "success" "") (-1) 10 []).calls.map
            fun r => r.url) = ["https://api.siacentral.com/v2/hosts?limit=10&page=0"]) := by
  refine ⟨⟨sia.GetActiveHosts_request QueryEscape t page limit filters,
      sia.values_Get?_page page limit filters, sia.values_Get?_limit page limit filters⟩,
    fun hmap hpage hlimit => ?_, ⟨?_, ?_, ?_⟩, ?_,
    ⟨by decide, by decide, by decide, by decide, by decide⟩⟩
  · have hn := sia.values_nodup_of_filters page limit filters hmap
    rw [Values.queryValues_eq _ _ hn, Values.queryValues_eq _ _ hn, sia.values_Get?_page,
      sia.values_Get?_limit, (Values.Get?_eq_none_iff _ _).mpr hpage,
      (Values.Get?_eq_none_iff _ _).mpr hlimit]
    exact ⟨rfl, rfl⟩
  · exact sia.filters_nodup_keys FormatFloat ms [] List.nodup_nil
  · intro h
    rcases (sia.filters_mem_keys FormatFloat ms [] "page").mp h with ⟨m, _, hk⟩ | hk
    · exact (sia.Modifier.page_limit_not_mem_keys FormatFloat m).1 hk
    · cases hk
  · intro h
    rcases (sia.filters_mem_keys FormatFloat ms [] "limit").mp h with ⟨m, _, hk⟩ | hk
    · exact (sia.Modifier.page_limit_not_mem_keys FormatFloat m).2 hk
    · cases hk
  · rw [sia.GetActiveHosts_request QueryEscape t page limit [], ← sia.clamp_limit,
      ← sia.clamp_page]
    rfl

/-- C4 amended, at a concrete input: the filter `HostFilterOnline(true)`, page -1
and limit 501; the filter leaves a map in which `page` and `limit` are unset, the
request carries `page=0` and `limit=500` and nothing else under these keys. -/
theorem GetActiveHosts_page_limit_clamped_witness :
    ((Values.keys ([sia.HostFilterOnline true].foldl (fun values f => f values) [])).Nodup ∧
        "page" ∉ Values.keys ([sia.HostFilterOnline true].foldl (fun values f => f values) []) ∧
        "limit" ∉ Values.keys ([sia.HostFilterOnline true].foldl (fun values f => f values) [])) ∧
      ((sia.GetActiveHosts.values (-1) 501 [sia.HostFilterOnline true]).queryValues "page" =
          ["0"] ∧
        (sia.GetActiveHosts.values (-1) 501 [sia.HostFilterOnline true]).queryValues "limit" =
          ["500"]) ∧
      ((sia.GetActiveHosts id (sia.sampleHosts 200 none "success" "") (-1) 501
          [sia.HostFilterOnline true]).calls.map fun r => (r.method, r.url, r.body.isNone)) =
        [("GET", "https://api.siacentral.com/v2/hosts?limit=500&online=true&page=0", true)] :=
  ⟨⟨by decide, by decide, by decide⟩,
    (GetActiveHosts_page_limit_clamped Nat.repr id (sia.sampleHosts 200 none "success" "")
      (-1) 501 [sia.HostFilterOnline true] []).2.1 (by decide) (by decide) (by decide),
    by decide⟩
